import Mathlib

/-
Verification development for the Playwright execution orchestrator
(`src/app/actions/execute-playwright-action.ts`).

The TypeScript module is a single server action, `executePlaywrightTest`,
plus small helpers (`ensureDir`, `findSpecRecursive`, the inline
`getAllSpecTitles`).  The embedding below models every effectful library
call (filesystem, subprocess, JSON parsing) as an oracle packaged in a
`World` value, and translates the orchestrator's control flow into a pure
function of that world.  JavaScript strings are modelled as Lean `String`,
JS `undefined`-able values as `Option`, JS truthiness of a string as
non-emptiness, and a thrown/rejected exception as the `Except.error`
branch of the returned value.
-/

namespace PlaywrightExec

/-- The single-quote character, written via its code point. -/
def squote : Char := Char.ofNat 39

/-- The backslash character, written via its code point. -/
def bslash : Char := Char.ofNat 92

/-- Line feed. -/
def lfChar : Char := Char.ofNat 10

/-- Carriage return. -/
def crChar : Char := Char.ofNat 13

/-- Model of `path.join(a, b)` for a normal relative second segment on a
POSIX filesystem: the two segments joined with a separator. -/
def pathJoin (a b : String) : String := a ++ "/" ++ b

/-- Whether a POSIX path is absolute: its first character is a slash. -/
def isAbsolutePath (p : String) : Bool :=
  match p.data with
  | c :: _ => c == Char.ofNat 47
  | [] => false

/-- Model of `path.resolve(base, p)`: an absolute `p` is kept, a relative
`p` is joined onto `base`. -/
def pathResolve (base p : String) : String :=
  if isAbsolutePath p then p else pathJoin base p

/-- Model of the JavaScript `||` operator on strings: the left operand
unless it is falsy (empty), otherwise the right operand. -/
def jsOr (a b : String) : String := if a = "" then b else a

/-- Model of reading a possibly-`undefined` string field under JS
truthiness: `undefined` and the empty string are both dropped. -/
def truthyOpt (o : Option String) : Option String :=
  match o with
  | some s => if s = "" then none else some s
  | none => none

/-- JS truthiness of an optional path field. -/
def truthyPath (o : Option String) : Bool :=
  match o with
  | some s => s != ""
  | none => false

/-- The string `needle` occurs somewhere inside `hay`. -/
def strMentions (needle hay : String) : Prop :=
  needle.data <:+: hay.data

instance (needle hay : String) : Decidable (strMentions needle hay) := by
  unfold strMentions
  infer_instance

theorem strMentions_here (a b : String) : strMentions b (a ++ b) := by
  refine ⟨a.data, [], ?_⟩
  simp [String.data_append]

theorem strMentions_extend (n h c : String) (hm : strMentions n h) : strMentions n (h ++ c) := by
  obtain ⟨s, t, hst⟩ := hm
  refine ⟨s, t ++ c.data, ?_⟩
  simp only [String.data_append, ← hst]
  simp [List.append_assoc]

theorem strMentions_append (a b c : String) : strMentions b (a ++ b ++ c) :=
  strMentions_extend b (a ++ b) c (strMentions_here a b)

/-- Decimal digit `d` rendered as a character, as JS number-to-string
conversion renders each digit. -/
def digitChar (d : Nat) : Char := Char.ofNat (48 + d)

/-- Most-significant-first decimal digits of `n`, with enough fuel;
structural recursion on the fuel keeps the definition kernel-reducible. -/
def toDecimalAux : Nat → Nat → List Char
  | 0, _ => []
  | fuel + 1, n => if n = 0 then [] else toDecimalAux fuel (n / 10) ++ [digitChar (n % 10)]

/-- Model of JS template interpolation `${n}` for a non-negative integer:
its decimal rendering. -/
def natToDecimal (n : Nat) : String :=
  if n = 0 then "0" else String.mk (toDecimalAux n n)

/-- Left inverse of the decimal rendering: fold decimal characters back
into a number. -/
def decFold (acc : Nat) : List Char → Nat
  | [] => acc
  | c :: rest => decFold (acc * 10 + (c.toNat - 48)) rest

theorem decFold_append (acc : Nat) (xs ys : List Char) :
    decFold acc (xs ++ ys) = decFold (decFold acc xs) ys := by
  induction xs generalizing acc with
  | nil => rfl
  | cons c rest ih =>
    rw [List.cons_append]
    rw [show ∀ a l, decFold a (c :: l) = decFold (a * 10 + (c.toNat - 48)) l from fun a l => rfl]
    rw [show decFold acc (c :: rest) = decFold (acc * 10 + (c.toNat - 48)) rest from rfl]
    exact ih _

theorem digitChar_toNat_fin : ∀ d : Fin 10, (digitChar d.val).toNat - 48 = d.val := by
  decide

theorem digitChar_toNat (d : Nat) (hd : d < 10) : (digitChar d).toNat - 48 = d :=
  digitChar_toNat_fin ⟨d, hd⟩

theorem decFold_toDecimalAux (fuel : Nat) :
    ∀ n acc, n ≤ fuel →
      decFold acc (toDecimalAux fuel n) = acc * 10 ^ (toDecimalAux fuel n).length + n := by
  induction fuel with
  | zero =>
    intro n acc hn
    have h0 : n = 0 := Nat.le_zero.mp hn
    subst h0
    show acc = acc * 10 ^ (List.length ([] : List Char)) + 0
    simp
  | succ fuel ih =>
    intro n acc hn
    by_cases h0 : n = 0
    · subst h0
      show acc = acc * 10 ^ (List.length ([] : List Char)) + 0
      simp
    · have hdiv : n / 10 ≤ fuel := by
        have h1 : n / 10 < n := Nat.div_lt_self (Nat.pos_of_ne_zero h0) (by norm_num)
        omega
      have hmod : n % 10 < 10 := Nat.mod_lt _ (by norm_num)
      have hstep : toDecimalAux (fuel + 1) n = toDecimalAux fuel (n / 10) ++ [digitChar (n % 10)] := by
        rw [show toDecimalAux (fuel + 1) n
              = if n = 0 then [] else toDecimalAux fuel (n / 10) ++ [digitChar (n % 10)] from rfl]
        simp [h0]
      rw [hstep, decFold_append, ih (n / 10) acc hdiv]
      rw [show ∀ x c, decFold x [c] = x * 10 + (c.toNat - 48) from fun x c => rfl]
      rw [digitChar_toNat _ hmod, List.length_append]
      generalize (toDecimalAux fuel (n / 10)).length = k
      have hdm : n / 10 * 10 + n % 10 = n := by omega
      calc (acc * 10 ^ k + n / 10) * 10 + n % 10
          = acc * (10 ^ k * 10) + (n / 10 * 10 + n % 10) := by ring
        _ = acc * 10 ^ (k + List.length [digitChar (n % 10)]) + n := by
            rw [hdm]
            norm_num [pow_succ]

/-- Decode a decimal string back to the number; a left inverse of
`natToDecimal`. -/
def decDecode (s : String) : Nat := decFold 0 s.data

theorem decDecode_natToDecimal (n : Nat) : decDecode (natToDecimal n) = n := by
  by_cases h0 : n = 0
  · subst h0
    decide
  · rw [show natToDecimal n = String.mk (toDecimalAux n n) from by simp [natToDecimal, h0]]
    show decFold 0 (toDecimalAux n n) = n
    have := decFold_toDecimalAux n n 0 (le_refl n)
    simpa using this

theorem natToDecimal_injective : Function.Injective natToDecimal := by
  intro a b hab
  have ha := decDecode_natToDecimal a
  have hb := decDecode_natToDecimal b
  rw [hab] at ha
  omega

theorem digitRange : ∀ d : Fin 10, 48 ≤ (digitChar d.val).toNat ∧ (digitChar d.val).toNat ≤ 57 := by
  decide

theorem toDecimalAux_digits (fuel : Nat) :
    ∀ n c, c ∈ toDecimalAux fuel n → 48 ≤ c.toNat ∧ c.toNat ≤ 57 := by
  induction fuel with
  | zero => intro n c hc; simp [toDecimalAux] at hc
  | succ fuel ih =>
    intro n c hc
    by_cases h0 : n = 0
    · simp [toDecimalAux, h0] at hc
    · simp only [toDecimalAux, h0, if_false, List.mem_append, List.mem_singleton] at hc
      rcases hc with hc | hc
      · exact ih _ _ hc
      · subst hc
        have hmod : n % 10 < 10 := Nat.mod_lt _ (by norm_num)
        have := digitRange ⟨n % 10, hmod⟩
        simpa using this

/-- The character class `[a-zA-Z0-9_-]` of the sanitizer regex on line 58,
expressed on code points. -/
def SafeChar (c : Char) : Prop :=
  (97 ≤ c.toNat ∧ c.toNat ≤ 122) ∨ (65 ≤ c.toNat ∧ c.toNat ≤ 90) ∨
    (48 ≤ c.toNat ∧ c.toNat ≤ 57) ∨ c.toNat = 95 ∨ c.toNat = 45

instance (c : Char) : Decidable (SafeChar c) := by
  unfold SafeChar
  infer_instance

/-- Line 58: `testCase.scenario.replace(/[^a-zA-Z0-9_-]/g, '_')`. -/
def sanitizeScenarioName (s : String) : String :=
  String.mk (s.data.map (fun c => if SafeChar c then c else Char.ofNat 95))

/-- Line 59: `` `${sanitizedScenarioName}-${Date.now()}` ``, with the
current-time millisecond count passed in as `now`. -/
def uniqueRunId (scen : String) (now : Nat) : String :=
  sanitizeScenarioName scen ++ "-" ++ natToDecimal now

theorem sanitize_safe (s : String) :
    ∀ c ∈ (sanitizeScenarioName s).data, SafeChar c := by
  intro c hc
  have hc' : c ∈ s.data.map (fun c => if SafeChar c then c else Char.ofNat 95) := hc
  rcases List.mem_map.mp hc' with ⟨a, _, ha⟩
  by_cases h : SafeChar a
  · rw [if_pos h] at ha
    exact ha ▸ h
  · rw [if_neg h] at ha
    subst ha
    decide

theorem natToDecimal_digit_range (n : Nat) :
    ∀ c ∈ (natToDecimal n).data, 48 ≤ c.toNat ∧ c.toNat ≤ 57 := by
  intro c hc
  by_cases h0 : n = 0
  · subst h0
    have hzd : (natToDecimal 0).data = [Char.ofNat 48] := by decide
    rw [hzd] at hc
    rcases List.mem_singleton.mp hc with rfl
    decide
  · have hrepr : natToDecimal n = String.mk (toDecimalAux n n) := by simp [natToDecimal, h0]
    rw [hrepr] at hc
    exact toDecimalAux_digits n n c hc

theorem natToDecimal_safe (n : Nat) : ∀ c ∈ (natToDecimal n).data, SafeChar c := by
  intro c hc
  have := natToDecimal_digit_range n c hc
  exact Or.inr (Or.inr (Or.inl this))

theorem natToDecimal_no_dash (n : Nat) : ∀ c ∈ (natToDecimal n).data, c ≠ Char.ofNat 45 := by
  intro c hc he
  have hr := natToDecimal_digit_range n c hc
  rw [he] at hr
  revert hr
  decide

/-- The characters of a string after the final dash. -/
def afterLastDash (l : List Char) : List Char :=
  (l.reverse.takeWhile (fun c => c != Char.ofNat 45)).reverse

theorem takeWhile_append_stop (p : Char → Bool) (c : Char) (hc : p c = false) :
    ∀ a b, (∀ x ∈ a, p x = true) → List.takeWhile p (a ++ c :: b) = a := by
  intro a
  induction a with
  | nil =>
    intro b _
    simp [List.takeWhile, hc]
  | cons x rest ih =>
    intro b hall
    have hx : p x = true := hall x (List.mem_cons_self x rest)
    rw [List.cons_append, List.takeWhile_cons, hx]
    simp only [if_true]
    rw [ih b (fun y hy => hall y (List.mem_cons_of_mem x hy))]

theorem afterLastDash_spec (xs ys : List Char) (hys : ∀ c ∈ ys, c ≠ Char.ofNat 45) :
    afterLastDash (xs ++ Char.ofNat 45 :: ys) = ys := by
  unfold afterLastDash
  rw [List.reverse_append, List.reverse_cons, List.append_assoc, List.singleton_append]
  rw [takeWhile_append_stop _ (Char.ofNat 45) (by decide) ys.reverse xs.reverse
        (fun x hx => by
          have := hys x (List.mem_reverse.mp hx)
          simpa [bne_iff_ne] using this)]
  exact List.reverse_reverse ys

theorem string_data_inj {a b : String} (h : a.data = b.data) : a = b := by
  cases a
  cases b
  exact congrArg String.mk h

theorem uniqueRunId_data (scen : String) (now : Nat) :
    (uniqueRunId scen now).data
      = (sanitizeScenarioName scen).data ++ Char.ofNat 45 :: (natToDecimal now).data := by
  unfold uniqueRunId
  rw [String.data_append, String.data_append]
  have : ("-" : String).data = [Char.ofNat 45] := by decide
  rw [this]
  simp

/-- Path-safety of the run id: every character is in `[a-zA-Z0-9_-]`. -/
theorem uniqueRunId_safe (scen : String) (now : Nat) :
    ∀ c ∈ (uniqueRunId scen now).data, SafeChar c := by
  intro c hc
  rw [uniqueRunId_data] at hc
  rcases List.mem_append.mp hc with h | h
  · exact sanitize_safe scen c h
  · rcases List.mem_cons.mp h with h | h
    · subst h
      decide
    · exact natToDecimal_safe now c h

/-- Runs whose `Date.now()` values differ always get distinct run ids:
the id determines the timestamp as the decimal segment after its final
dash. -/
theorem uniqueRunId_time_inj (scen1 scen2 : String) (now1 now2 : Nat)
    (hne : now1 ≠ now2) : uniqueRunId scen1 now1 ≠ uniqueRunId scen2 now2 := by
  intro heq
  have hdata := congrArg String.data heq
  rw [uniqueRunId_data, uniqueRunId_data] at hdata
  have h1 := afterLastDash_spec (sanitizeScenarioName scen1).data (natToDecimal now1).data
    (natToDecimal_no_dash now1)
  have h2 := afterLastDash_spec (sanitizeScenarioName scen2).data (natToDecimal now2).data
    (natToDecimal_no_dash now2)
  have : (natToDecimal now1).data = (natToDecimal now2).data := by
    rw [← h1, ← h2, hdata]
  exact hne (natToDecimal_injective (string_data_inj this))

/-- Line 77/78: `testCase.scenario.replace(/'/g, "\\'")` — every single
quote in the scenario name is prefixed with a backslash before being
spliced into the single-quoted title literal of the generated test file. -/
def escapeQuotes : List Char → List Char
  | [] => []
  | c :: rest =>
    if c = squote then bslash :: squote :: escapeQuotes rest
    else c :: escapeQuotes rest

/-- The value of a JavaScript `SingleEscapeCharacter` (and of a
`NonEscapeCharacter`, which denotes itself); the multi-character escapes
(`\x`, `\u`, legacy octal) are outside the modelled fragment and yield
`none`. -/
def jsEscapeMap (d : Char) : Option Char :=
  if d = squote then some squote
  else if d = bslash then some bslash
  else if d = 'n' then some lfChar
  else if d = 'b' then some (Char.ofNat 8)
  else if d = 't' then some (Char.ofNat 9)
  else if d = 'r' then some crChar
  else if d = 'f' then some (Char.ofNat 12)
  else if d = 'v' then some (Char.ofNat 11)
  else if d = '0' then some (Char.ofNat 0)
  else if d = 'x' then none
  else if d = 'u' then none
  else if ('1' : Char) ≤ d ∧ d ≤ '9' then none
  else some d

mutual

/-- How a JavaScript lexer reads the body of a single-quoted string
literal: a raw quote would terminate the literal early, a raw line
terminator is a syntax error, and a backslash defers to the escape rules
of `jsUnescapeEscTail`.  `none` means the body does not lex to exactly
this string. -/
def jsUnescapeSQ : List Char → Option (List Char)
  | [] => some []
  | c :: rest =>
    if c = squote then none
    else if c = lfChar then none
    else if c = crChar then none
    else if c = bslash then jsUnescapeEscTail rest
    else (jsUnescapeSQ rest).map (fun tl => c :: tl)

/-- What follows a backslash: a line terminator is a line continuation,
any other character denotes `jsEscapeMap` of it, and a backslash directly
before the closing quote escapes the delimiter, so the body cannot end
there. -/
def jsUnescapeEscTail : List Char → Option (List Char)
  | [] => none
  | d :: rest2 =>
    if d = lfChar ∨ d = crChar then jsUnescapeSQ rest2
    else
      match jsEscapeMap d with
      | some e => (jsUnescapeSQ rest2).map (fun tl => e :: tl)
      | none => none

end

/-- The character sequence the materializer places between the single
quotes of the generated `test('...')` title (line 78). -/
def materializedTitleChars (scen : String) : List Char :=
  "should successfully complete: ".data ++ escapeQuotes scen.data

/-- Line 171: the title the correlator searches the JSON report for. -/
def mkTargetTitle (scen : String) : String :=
  "should successfully complete: " ++ scen

theorem jsUnescapeSQ_plain_append (a : List Char)
    (ha : ∀ c ∈ a, c ≠ squote ∧ c ≠ bslash ∧ c ≠ lfChar ∧ c ≠ crChar) (b : List Char) :
    jsUnescapeSQ (a ++ b) = (jsUnescapeSQ b).map (fun tl => a ++ tl) := by
  induction a with
  | nil =>
    simp
  | cons c rest ih =>
    have hc := ha c (List.mem_cons_self c rest)
    have hrest : ∀ x ∈ rest, x ≠ squote ∧ x ≠ bslash ∧ x ≠ lfChar ∧ x ≠ crChar :=
      fun x hx => ha x (List.mem_cons_of_mem c hx)
    rw [List.cons_append]
    rw [show jsUnescapeSQ (c :: (rest ++ b))
          = if c = squote then none
            else if c = lfChar then none
            else if c = crChar then none
            else if c = bslash then jsUnescapeEscTail (rest ++ b)
            else (jsUnescapeSQ (rest ++ b)).map (fun tl => c :: tl) from rfl]
    rw [if_neg hc.1, if_neg hc.2.2.1, if_neg hc.2.2.2, if_neg hc.2.1]
    rw [ih hrest]
    cases jsUnescapeSQ b with
    | none => rfl
    | some tl => rfl

theorem jsUnescapeSQ_escapeQuotes (l : List Char)
    (hb : bslash ∉ l) (hlf : lfChar ∉ l) (hcr : crChar ∉ l) :
    jsUnescapeSQ (escapeQuotes l) = some l := by
  induction l with
  | nil => rfl
  | cons c rest ih =>
    have hb' : bslash ∉ rest := fun h => hb (List.mem_cons_of_mem c h)
    have hlf' : lfChar ∉ rest := fun h => hlf (List.mem_cons_of_mem c h)
    have hcr' : crChar ∉ rest := fun h => hcr (List.mem_cons_of_mem c h)
    have ihr := ih hb' hlf' hcr'
    by_cases hq : c = squote
    · subst hq
      rw [show escapeQuotes (squote :: rest) = bslash :: squote :: escapeQuotes rest from by
            rw [show escapeQuotes (squote :: rest)
                  = if squote = squote then bslash :: squote :: escapeQuotes rest
                    else squote :: escapeQuotes rest from rfl]
            rw [if_pos rfl]]
      rw [show jsUnescapeSQ (bslash :: squote :: escapeQuotes rest)
            = if bslash = squote then none
              else if bslash = lfChar then none
              else if bslash = crChar then none
              else if bslash = bslash then jsUnescapeEscTail (squote :: escapeQuotes rest)
              else (jsUnescapeSQ (squote :: escapeQuotes rest)).map (fun tl => bslash :: tl)
            from rfl]
      rw [if_neg (by decide), if_neg (by decide), if_neg (by decide), if_pos rfl]
      rw [show jsUnescapeEscTail (squote :: escapeQuotes rest)
            = if squote = lfChar ∨ squote = crChar then jsUnescapeSQ (escapeQuotes rest)
              else
                match jsEscapeMap squote with
                | some e => (jsUnescapeSQ (escapeQuotes rest)).map (fun tl => e :: tl)
                | none => none
            from rfl]
      rw [if_neg (by decide)]
      rw [show jsEscapeMap squote = some squote from by decide]
      rw [ihr]
      rfl
    · have hcb : c ≠ bslash := fun h => hb (h ▸ List.mem_cons_self c rest)
      have hclf : c ≠ lfChar := fun h => hlf (h ▸ List.mem_cons_self c rest)
      have hccr : c ≠ crChar := fun h => hcr (h ▸ List.mem_cons_self c rest)
      rw [show escapeQuotes (c :: rest)
            = if c = squote then bslash :: squote :: escapeQuotes rest
              else c :: escapeQuotes rest from rfl]
      rw [if_neg hq]
      rw [show jsUnescapeSQ (c :: escapeQuotes rest)
            = if c = squote then none
              else if c = lfChar then none
              else if c = crChar then none
              else if c = bslash then jsUnescapeEscTail (escapeQuotes rest)
              else (jsUnescapeSQ (escapeQuotes rest)).map (fun tl => c :: tl) from rfl]
      rw [if_neg hq, if_neg hclf, if_neg hccr, if_neg hcb]
      rw [ihr]
      rfl

/-- An attachment entry of the Playwright JSON report (and of the returned
result): `{ name, contentType, path?, body? }`. -/
structure Attachment where
  name : String
  contentType : String
  path : Option String
  body : Option String
  deriving DecidableEq

/-- An error object of the report; only its `message` field is read. -/
structure ErrObj where
  message : String
  deriving DecidableEq

/-- One entry of a test's `results` array: the fields lines 192–223 read.
`duration` is a JSON number, modelled as a natural millisecond count. -/
structure TestResult where
  status : String
  duration : Nat
  error : Option ErrObj
  errors : Option (List ErrObj)
  attachments : Option (List Attachment)
  deriving DecidableEq

/-- One entry of a spec's `tests` array. -/
structure TestEntry where
  results : List TestResult
  deriving DecidableEq

/-- A spec of the report: a title and its tests.  The code indexes
`tests` and `results` without an existence check, so they are modelled as
always-present arrays, as Playwright's JSON reporter emits them. -/
structure SpecR where
  title : String
  tests : List TestEntry
  deriving DecidableEq

/-- A suite node of the report: `specs` and nested `suites` are each
optional, mirroring the truthiness guards `if (suite.specs)` and
`if (suite.suites)`. -/
inductive Suite where
  | mk (specs : Option (List SpecR)) (suites : Option (List Suite))

/-- The `specs` field of a suite. -/
def Suite.specs : Suite → Option (List SpecR)
  | .mk s _ => s

/-- The nested `suites` field of a suite. -/
def Suite.subs : Suite → Option (List Suite)
  | .mk _ t => t

/-- The parsed JSON report: top-level `suites` (checked for truthiness on
line 185) and global `errors` (line 228); the latter are only stringified
into a log line, so they are modelled by their rendered messages. -/
structure Report where
  suites : Option (List Suite)
  errors : Option (List String)

mutual

/-- The body of `findSpecRecursive`'s loop (lines 38–47) for one suite:
check the suite's own specs, then search its nested suites. -/
def findSpecInSuite (s : Suite) (targetTitle : String) : Option SpecR :=
  match s with
  | .mk specs subs =>
    match (match specs with
           | some sps => sps.find? (fun sp => sp.title == targetTitle)
           | none => none) with
    | some f => some f
    | none =>
      match subs with
      | some ss => findSpecRecursive ss targetTitle
      | none => none

/-- Lines 37–49: recursively find the first spec with the given title,
checking each suite's own specs before its nested suites. -/
def findSpecRecursive (suites : List Suite) (targetTitle : String) : Option SpecR :=
  match suites with
  | [] => none
  | s :: rest =>
    match findSpecInSuite s targetTitle with
    | some f => some f
    | none => findSpecRecursive rest targetTitle

end

mutual

/-- The titles one suite contributes in `getAllSpecTitles` (lines
175–184): its own truthy spec titles, then those of its nested suites. -/
def titlesInSuite (s : Suite) : List String :=
  match s with
  | .mk specs subs =>
    (match specs with
     | some sps => (sps.filter (fun sp => sp.title != "")).map SpecR.title
     | none => []) ++
    (match subs with
     | some ss => titlesInSuites ss
     | none => [])

/-- The titles a suite list contributes, in traversal order. -/
def titlesInSuites (l : List Suite) : List String :=
  match l with
  | [] => []
  | s :: rest => titlesInSuite s ++ titlesInSuites rest

end

/-- Lines 174–184: all truthy spec titles of the report, in traversal
order. -/
def getAllSpecTitles (suites : List Suite) : List String :=
  titlesInSuites suites

/-- Model of `JSON.stringify` on an array of strings, escaping quotes and
backslashes (the control-character escapes of full JSON are outside the
modelled fragment). -/
def jsonEscapeChar (c : Char) : List Char :=
  if c = Char.ofNat 34 then [bslash, Char.ofNat 34]
  else if c = bslash then [bslash, bslash]
  else [c]

/-- Render one string as a JSON string literal. -/
def jsonQuote (s : String) : String :=
  String.mk (Char.ofNat 34 :: s.data.flatMap jsonEscapeChar ++ [Char.ofNat 34])

/-- Render a list of strings as a JSON array literal. -/
def jsonStringifyList (l : List String) : String :=
  "[" ++ String.intercalate "," (l.map jsonQuote) ++ "]"

/-- The test-case input: `{ scenario, steps }` from the generation stage.
(The field is named `scenarioName` here; the source calls it
`scenario`.) -/
structure TestCase where
  scenarioName : String
  steps : List String
  deriving DecidableEq

/-- The `PlaywrightExecutionResult` contract of lines 11–22.  `stdout`
and `stderr` start out `undefined` and are modelled as options. -/
structure PlaywrightExecutionResult where
  scenarioName : String
  success : Bool
  logs : List String
  stdout : Option String
  stderr : Option String
  error : Option String
  screenshotDataUri : Option String
  videoPath : Option String
  duration : Option Nat
  attachments : Option (List Attachment)
  deriving DecidableEq

/-- Which way the `execFileAsync` call of line 155 failed.  Node's
`execFile` invokes its callback with an `Error` whenever the child could
not be spawned, was killed (the 120 s timeout), or exited with a non-zero
status, so `promisify(execFile)` rejects in all three cases; the kind is
not observable by the orchestrator, which only sees the rejection's
`message`, `stdout` and `stderr`. -/
inductive ErrKind where
  | launchFail
  | timeoutKill
  | nonZeroExit
  deriving DecidableEq

/-- Outcome of the runner subprocess invocation: fulfilled with captured
stdout/stderr (exit status 0), or rejected. -/
inductive RunnerOutcome where
  | ok (stdout stderr : String)
  | err (kind : ErrKind) (msg : String) (stdout stderr : Option String)
  deriving DecidableEq

/-- Filesystem oracle: the outcome each `fs` call would have.  A `some`
message in an `…Err` field means that call rejects with that message. -/
structure Fs where
  accessOk : String → Bool
  mkdirErr : String → Option String
  writeFileErr : String → Option String
  readFileText : String → Except String String
  readFileB64 : String → Except String String
  rmErr : Option String

/-- The whole environment one invocation of `executePlaywrightTest` runs
against. -/
structure World where
  cwd : String
  nodePathEnv : Option String
  fs : Fs
  runner : RunnerOutcome
  jsonParse : String → Except String Report

/-- Lines 24–30: `fs.access`, falling back to `fs.mkdir` (recursive).
`some msg` models the promise rejecting with that message. -/
def ensureDir (fs : Fs) (dirPath : String) : Option String :=
  if fs.accessOk dirPath then none else fs.mkdirErr dirPath

/-- Line 61: the per-run context directory under
`<cwd>/playwright-genius-runs`. -/
def runContextDirOf (cwd scen : String) (now : Nat) : String :=
  pathJoin (pathJoin cwd "playwright-genius-runs") (uniqueRunId scen now)

/-- Line 63: the artifacts directory inside the context. -/
def artifactsDirOf (cwd scen : String) (now : Nat) : String :=
  pathJoin (runContextDirOf cwd scen now) "playwright-output"

/-- Line 166: the absolute report path. -/
def reportJsonPathOf (cwd scen : String) (now : Nat) : String :=
  pathJoin (artifactsDirOf cwd scen now) "report.json"

/-- Line 130: the local Playwright binary path. -/
def playwrightBinPathOf (cwd : String) : String :=
  pathJoin (pathJoin (pathJoin cwd "node_modules") ".bin") "playwright"

/-- How the preparation steps before the `try` block (lines 71, 72, 83
and 120) end: an exception before the context directory exists, an
exception after it exists, or success. -/
inductive SetupOutcome where
  | failNoCtx (msg : String)
  | failWithCtx (msg : String)
  | ok
  deriving DecidableEq

/-- Lines 71–120: create the context directory and artifacts directory
and write the test file and the config file.  These `await`s are outside
the `try` of line 128, so the first rejection escapes the function. -/
def contextSetup (fs : Fs) (runCtxDir : String) (artifactsDir : String) : SetupOutcome :=
  match ensureDir fs runCtxDir with
  | some msg => .failNoCtx msg
  | none =>
    match ensureDir fs artifactsDir with
    | some msg => .failWithCtx msg
    | none =>
      match fs.writeFileErr (pathJoin runCtxDir "test.spec.ts") with
      | some msg => .failWithCtx msg
      | none =>
        match fs.writeFileErr (pathJoin runCtxDir "playwright.config.ts") with
        | some msg => .failWithCtx msg
        | none => .ok

/-- Line 216: the error message extracted from a non-passed result —
`error?.message`, else the joined `errors` messages, else the bare
status.  The joiner is the two-character sequence backslash–n, as the
source's `join('\\n')` has it. -/
def extractError (tr : TestResult) : String :=
  jsOr (match tr.error with | some e => e.message | none => "")
    (jsOr (match tr.errors with
           | some l => String.intercalate "\\n" (l.map ErrObj.message)
           | none => "")
      ("Test " ++ tr.status))

/-- Line 226: the error reported when no matching spec/test/result is
found in the parsed report. -/
def notFoundError (scen reportPath : String) : String :=
  "Test result for scenario \"" ++ scen ++ "\" not found in JSON report from " ++ reportPath ++
    ". Check Playwright stdout/stderr. Ensure target title matches a title in \x27Available spec titles in report\x27."

/-- Line 233: the error reported when the report cannot be read or
parsed. -/
def reportCatchError (reportPath msg : String) : String :=
  "Failed to parse Playwright JSON report from " ++ reportPath ++ ". Error: " ++ msg ++
    ". Check Playwright stdout/stderr."

/-- Lines 197–200: attachment paths resolved against the artifacts
directory. -/
def resolveAttachments (artifactsDir : String) (atts : Option (List Attachment)) :
    Option (List Attachment) :=
  atts.map (fun l => l.map (fun a => { a with path := a.path.map (fun p => pathResolve artifactsDir p) }))

/-- Lines 202–204: the screenshot attachment the resolver looks for. -/
def isScreenshotAtt (a : Attachment) : Bool :=
  a.name == "screenshot" && a.contentType == "image/png" && truthyPath a.path

/-- Lines 217–219: the video attachment surfaced on failure. -/
def isVideoAtt (a : Attachment) : Bool :=
  a.name == "video" && a.contentType == "video/webm" && truthyPath a.path

/-- Lines 202–213: the screenshot-inlining block, with its own inner
`try` — a read failure only adds a log line. -/
def screenshotStep (readFileB64 : String → Except String String)
    (r0 : PlaywrightExecutionResult) (shot : Option Attachment) : PlaywrightExecutionResult :=
  match shot with
  | some a =>
    match a.path with
    | some p =>
      match readFileB64 p with
      | .ok b64 =>
        { r0 with
          screenshotDataUri := some ("data:image/png;base64," ++ b64)
          logs := r0.logs ++ ["Screenshot captured: " ++ p] }
      | .error m =>
        { r0 with logs := r0.logs ++ ["Failed to read screenshot (" ++ p ++ "): " ++ m] }
    | none => r0
  | none => r0

/-- Lines 217–223: surface the video path of a failed test. -/
def videoStep (vid : Option Attachment) (r2 : PlaywrightExecutionResult) :
    PlaywrightExecutionResult :=
  match vid with
  | some a =>
    match a.path with
    | some p => { r2 with videoPath := some p, logs := r2.logs ++ ["Video recorded: " ++ p] }
    | none => r2
  | none => r2

/-- Lines 194–200: the matched result's status, duration and resolved
attachments recorded into the result. -/
def foundBase (artifactsDir : String) (base : PlaywrightExecutionResult) (tr : TestResult) :
    PlaywrightExecutionResult :=
  { base with
    success := tr.status == "passed"
    duration := some tr.duration
    attachments := resolveAttachments artifactsDir tr.attachments }

/-- Lines 194–224: the branch taken when a matched test result exists —
status mapping, duration, attachment resolution, screenshot inlining,
and on a non-passed status the error message and video path. -/
def foundPhase (readFileB64 : String → Except String String) (artifactsDir : String)
    (base : PlaywrightExecutionResult) (tr : TestResult) : PlaywrightExecutionResult :=
  let atts := resolveAttachments artifactsDir tr.attachments
  let r1 := screenshotStep readFileB64 (foundBase artifactsDir base tr)
    (atts.bind (fun l => l.find? isScreenshotAtt))
  if tr.status == "passed" then r1
  else
    videoStep (atts.bind (fun l => l.find? isVideoAtt))
      { r1 with error := some (extractError tr) }

/-- Lines 232–236: the `catch` of the report-reading `try`. -/
def reportCatch (reportPath msg : String) (b : PlaywrightExecutionResult) :
    PlaywrightExecutionResult :=
  { b with
    error := some (reportCatchError reportPath msg)
    logs := b.logs ++ [reportCatchError reportPath msg]
    success := false }

/-- Lines 171–188: the two diagnostic log lines pushed after a report
parses — the searched title (always) and the available titles (when the
report's `suites` field is truthy). -/
def searchLogsBase (scen : String) (base : PlaywrightExecutionResult) (report : Report) :
    PlaywrightExecutionResult :=
  let b1 := { base with
    logs := base.logs ++ ["Searching for spec title in JSON report: \"" ++ mkTargetTitle scen ++ "\""] }
  match report.suites with
  | some suites =>
    { b1 with logs := b1.logs ++
        ["Available spec titles in report: " ++ jsonStringifyList (getAllSpecTitles suites)] }
  | none => b1

/-- Lines 169–231: the parsed report is searched for the target title;
either the matched result is processed or the not-found error is
recorded, together with the diagnostic log lines. -/
def reportPhase (readFileB64 : String → Except String String)
    (scen reportPath artifactsDir : String)
    (base : PlaywrightExecutionResult) (report : Report) : PlaywrightExecutionResult :=
  let b2 := searchLogsBase scen base report
  let specResult := findSpecRecursive (report.suites.getD []) (mkTargetTitle scen)
  match specResult.bind (fun sp => sp.tests.head?.bind (fun t => t.results.head?)) with
  | some tr => foundPhase readFileB64 artifactsDir b2 tr
  | none =>
    let b3 := { b2 with
      error := some (notFoundError scen reportPath)
      logs := b2.logs ++ [notFoundError scen reportPath] }
    match report.errors with
    | some errs =>
      if errs.length > 0 then
        { b3 with logs := b3.logs ++
            ["Global errors in Playwright JSON report: " ++ jsonStringifyList errs] }
      else b3
    | none => b3

/-- Lines 122–153: the partial result at the point just before the
runner is launched, with the three setup log lines. -/
def preRunnerBase (w : World) (tc : TestCase) (now : Nat) : PlaywrightExecutionResult :=
  let runCtxDir := runContextDirOf w.cwd tc.scenarioName now
  let nodeModulesPath := pathJoin w.cwd "node_modules"
  let binPath := playwrightBinPathOf w.cwd
  let playwrightCommand := if w.fs.accessOk binPath then binPath else "npx"
  let args := if playwrightCommand == "npx"
    then ["playwright", "test", "--config", "playwright.config.ts", "--reporter=json"]
    else ["test", "--config", "playwright.config.ts", "--reporter=json"]
  let nodePathValue :=
    (match w.nodePathEnv with
     | some s => if s = "" then "" else s ++ ":"
     | none => "") ++ nodeModulesPath
  { scenarioName := tc.scenarioName
    success := false
    logs := ["Executing: " ++ playwrightCommand ++ " " ++ String.intercalate " " args ++
               " (CWD: " ++ runCtxDir ++ ")",
             "Project root for Node modules: " ++ w.cwd,
             "Setting NODE_PATH to: " ++ nodePathValue]
    stdout := none
    stderr := none
    error := none
    screenshotDataUri := none
    videoPath := none
    duration := none
    attachments := none }

/-- Lines 238–245: the `catch` of the outer `try` — the rejection's
message becomes the error, and its captured stdout/stderr are salvaged
when truthy. -/
def runnerCatch (base : PlaywrightExecutionResult) (msg : String)
    (stdoutE stderrE : Option String) : PlaywrightExecutionResult :=
  { base with
    success := false
    error := some (jsOr msg "Playwright execution failed.")
    stdout := truthyOpt stdoutE
    stderr := truthyOpt stderrE
    logs := base.logs ++ ["Execution error caught: " ++ msg]
      ++ (match truthyOpt stdoutE with | some s => ["Error stdout: " ++ s] | none => [])
      ++ (match truthyOpt stderrE with | some s => ["Error stderr: " ++ s] | none => []) }

/-- Lines 161–164: the fulfilled runner's stdout/stderr captured into
the result, with the corresponding log lines (stderr only when truthy). -/
def withRunnerOutput (base : PlaywrightExecutionResult) (stdout stderr : String) :
    PlaywrightExecutionResult :=
  { base with
    stdout := some stdout
    stderr := some stderr
    logs := base.logs ++ ["Playwright stdout: " ++ stdout]
      ++ (if stderr = "" then [] else ["Playwright stderr: " ++ stderr]) }

/-- Lines 161–236: the continuation after the runner fulfilled — capture
stdout/stderr, then read and parse the report inside the inner `try`. -/
def runnerOkCont (w : World) (tc : TestCase) (now : Nat)
    (base : PlaywrightExecutionResult) (stdout stderr : String) : PlaywrightExecutionResult :=
  let b1 := withRunnerOutput base stdout stderr
  let reportPath := reportJsonPathOf w.cwd tc.scenarioName now
  match w.fs.readFileText reportPath with
  | .error m => reportCatch reportPath m b1
  | .ok content =>
    match w.jsonParse content with
    | .error m => reportCatch reportPath m b1
    | .ok report =>
      reportPhase w.fs.readFileB64 tc.scenarioName reportPath
        (artifactsDirOf w.cwd tc.scenarioName now) b1 report

/-- The whole `try`/`catch` body (lines 128–245). -/
def tryBody (w : World) (tc : TestCase) (now : Nat) : PlaywrightExecutionResult :=
  match w.runner with
  | .err _kind msg stdoutE stderrE => runnerCatch (preRunnerBase w tc now) msg stdoutE stderrE
  | .ok stdout stderr => runnerOkCont w tc now (preRunnerBase w tc now) stdout stderr

instance {α β : Type} [DecidableEq α] [DecidableEq β] : DecidableEq (Except α β) := fun x y =>
  match x, y with
  | .error a, .error b =>
    if h : a = b then .isTrue (h ▸ rfl) else .isFalse (fun hc => h (Except.error.inj hc))
  | .ok a, .ok b =>
    if h : a = b then .isTrue (h ▸ rfl) else .isFalse (fun hc => h (Except.ok.inj hc))
  | .error _, .ok _ => .isFalse (fun hc => Except.noConfusion hc)
  | .ok _, .error _ => .isFalse (fun hc => Except.noConfusion hc)

/-- Everything one call to `executePlaywrightTest` leaves behind: the
value the promise settles with (`Except.error` = rejection), whether the
runner was launched, whether the `finally` cleanup ran, and whether the
run context directory still exists afterwards. -/
structure RunOutcome where
  result : Except String PlaywrightExecutionResult
  runnerInvoked : Bool
  cleanupRan : Bool
  ctxDirExistsAfter : Bool
  deriving DecidableEq

/-- Lines 51–258: the orchestrator.  Setup failures escape before the
`try` is entered (so no cleanup runs for them); otherwise the `try` body
produces the result and the `finally` removes the context directory
best-effort — `fs.rm(force, recursive)` with a swallowed rejection, so
the directory survives exactly when `rmErr` is set. -/
def executePlaywrightTest (w : World) (tc : TestCase) (appUrl : String) (now : Nat) :
    RunOutcome :=
  let _ := appUrl
  let runCtxDir := runContextDirOf w.cwd tc.scenarioName now
  let artifactsDir := artifactsDirOf w.cwd tc.scenarioName now
  match contextSetup w.fs runCtxDir artifactsDir with
  | .failNoCtx msg =>
    { result := .error msg, runnerInvoked := false, cleanupRan := false
      ctxDirExistsAfter := false }
  | .failWithCtx msg =>
    { result := .error msg, runnerInvoked := false, cleanupRan := false
      ctxDirExistsAfter := true }
  | .ok =>
    { result := .ok (tryBody w tc now)
      runnerInvoked := true
      cleanupRan := true
      ctxDirExistsAfter := w.fs.rmErr.isSome }

/-- The per-scenario `catch` of the caller's run-all loop
(`page.tsx` lines 257–267): a rejection is converted into a synthetic
failed result so the loop continues with the next scenario. -/
def batchCatchResult (scen msg : String) : PlaywrightExecutionResult :=
  { scenarioName := scen, success := false, logs := [msg], stdout := some "", stderr := some ""
    error := some msg, screenshotDataUri := none, videoPath := none, duration := none
    attachments := none }

/-- The caller's sequential run-all loop (`page.tsx` lines 237–272):
every scenario is executed and yields exactly one result entry. -/
def runAllTests (env : TestCase → World) (appUrl : String) (clock : TestCase → Nat)
    (tcs : List TestCase) : List PlaywrightExecutionResult :=
  tcs.map (fun tc =>
    match (executePlaywrightTest (env tc) tc appUrl (clock tc)).result with
    | .ok r => r
    | .error msg => batchCatchResult tc.scenarioName msg)

/-- The result of a fulfilled runner at the moment the report `try`
begins. -/
def okBase (w : World) (tc : TestCase) (now : Nat) (stdout stderr : String) :
    PlaywrightExecutionResult :=
  withRunnerOutput (preRunnerBase w tc now) stdout stderr

theorem runAllTests_length (env : TestCase → World) (appUrl : String)
    (clock : TestCase → Nat) (tcs : List TestCase) :
    (runAllTests env appUrl clock tcs).length = tcs.length := by
  simp [runAllTests]

theorem jsOr_ne_empty (a b : String) (hb : b ≠ "") : jsOr a b ≠ "" := by
  unfold jsOr
  split
  · exact hb
  · assumption

theorem test_status_ne_empty (s : String) : "Test " ++ s ≠ "" := by
  intro h
  have hlen := congrArg String.length h
  rw [String.length_append] at hlen
  have h5 : ("Test " : String).length = 5 := rfl
  have h0 : ("" : String).length = 0 := rfl
  rw [h5, h0] at hlen
  omega

theorem extractError_ne_empty (tr : TestResult) : extractError tr ≠ "" := by
  unfold extractError
  exact jsOr_ne_empty _ _ (jsOr_ne_empty _ _ (test_status_ne_empty tr.status))

theorem execute_setup_ok (w : World) (tc : TestCase) (appUrl : String) (now : Nat)
    (hsetup : contextSetup w.fs (runContextDirOf w.cwd tc.scenarioName now)
        (artifactsDirOf w.cwd tc.scenarioName now) = .ok) :
    executePlaywrightTest w tc appUrl now
      = { result := .ok (tryBody w tc now)
          runnerInvoked := true
          cleanupRan := true
          ctxDirExistsAfter := w.fs.rmErr.isSome } := by
  simp only [executePlaywrightTest, hsetup]

theorem execute_setup_fail (w : World) (tc : TestCase) (appUrl : String) (now : Nat)
    (msg : String)
    (hsetup : contextSetup w.fs (runContextDirOf w.cwd tc.scenarioName now)
          (artifactsDirOf w.cwd tc.scenarioName now) = .failNoCtx msg
      ∨ contextSetup w.fs (runContextDirOf w.cwd tc.scenarioName now)
          (artifactsDirOf w.cwd tc.scenarioName now) = .failWithCtx msg) :
    (executePlaywrightTest w tc appUrl now).result = .error msg
      ∧ (executePlaywrightTest w tc appUrl now).runnerInvoked = false
      ∧ (executePlaywrightTest w tc appUrl now).cleanupRan = false := by
  rcases hsetup with h | h <;> simp [executePlaywrightTest, h]

theorem tryBody_runner_err (w : World) (tc : TestCase) (now : Nat)
    (kind : ErrKind) (msg : String) (so se : Option String)
    (hrun : w.runner = .err kind msg so se) :
    tryBody w tc now = runnerCatch (preRunnerBase w tc now) msg so se := by
  simp only [tryBody, hrun]

theorem tryBody_runner_ok (w : World) (tc : TestCase) (now : Nat) (so se : String)
    (hrun : w.runner = .ok so se) :
    tryBody w tc now = runnerOkCont w tc now (preRunnerBase w tc now) so se := by
  simp only [tryBody, hrun]

theorem runnerOkCont_parsed (w : World) (tc : TestCase) (now : Nat)
    (base : PlaywrightExecutionResult) (so se content : String) (rpt : Report)
    (hread : w.fs.readFileText (reportJsonPathOf w.cwd tc.scenarioName now) = .ok content)
    (hparse : w.jsonParse content = .ok rpt) :
    runnerOkCont w tc now base so se
      = reportPhase w.fs.readFileB64 tc.scenarioName (reportJsonPathOf w.cwd tc.scenarioName now)
          (artifactsDirOf w.cwd tc.scenarioName now) (withRunnerOutput base so se) rpt := by
  simp only [runnerOkCont, hread, hparse]

theorem runnerOkCont_report_fail (w : World) (tc : TestCase) (now : Nat)
    (base : PlaywrightExecutionResult) (so se m : String)
    (hfail : w.fs.readFileText (reportJsonPathOf w.cwd tc.scenarioName now) = .error m
      ∨ ∃ content, w.fs.readFileText (reportJsonPathOf w.cwd tc.scenarioName now) = .ok content
          ∧ w.jsonParse content = .error m) :
    runnerOkCont w tc now base so se
      = reportCatch (reportJsonPathOf w.cwd tc.scenarioName now) m
          (withRunnerOutput base so se) := by
  rcases hfail with h | ⟨content, hok, hp⟩
  · simp only [runnerOkCont, h]
  · simp only [runnerOkCont, hok, hp]

theorem preRunnerBase_fields (w : World) (tc : TestCase) (now : Nat) :
    (preRunnerBase w tc now).success = false
      ∧ (preRunnerBase w tc now).error = none
      ∧ (preRunnerBase w tc now).duration = none
      ∧ (preRunnerBase w tc now).attachments = none
      ∧ (preRunnerBase w tc now).screenshotDataUri = none
      ∧ (preRunnerBase w tc now).videoPath = none
      ∧ (preRunnerBase w tc now).scenarioName = tc.scenarioName := by
  simp [preRunnerBase]

theorem withRunnerOutput_fields (base : PlaywrightExecutionResult) (so se : String) :
    (withRunnerOutput base so se).success = base.success
      ∧ (withRunnerOutput base so se).error = base.error
      ∧ (withRunnerOutput base so se).duration = base.duration
      ∧ (withRunnerOutput base so se).stdout = some so
      ∧ (withRunnerOutput base so se).stderr = some se
      ∧ (withRunnerOutput base so se).scenarioName = base.scenarioName
      ∧ (withRunnerOutput base so se).screenshotDataUri = base.screenshotDataUri := by
  simp [withRunnerOutput]

theorem searchLogsBase_fields (scen : String) (base : PlaywrightExecutionResult) (rpt : Report) :
    (searchLogsBase scen base rpt).success = base.success
      ∧ (searchLogsBase scen base rpt).error = base.error
      ∧ (searchLogsBase scen base rpt).duration = base.duration
      ∧ (searchLogsBase scen base rpt).stdout = base.stdout
      ∧ (searchLogsBase scen base rpt).stderr = base.stderr
      ∧ (searchLogsBase scen base rpt).scenarioName = base.scenarioName
      ∧ (searchLogsBase scen base rpt).screenshotDataUri = base.screenshotDataUri := by
  unfold searchLogsBase
  cases rpt.suites <;> simp

theorem searchLogsBase_mem_search (scen : String) (base : PlaywrightExecutionResult)
    (rpt : Report) :
    ("Searching for spec title in JSON report: \"" ++ mkTargetTitle scen ++ "\"")
      ∈ (searchLogsBase scen base rpt).logs := by
  unfold searchLogsBase
  cases rpt.suites <;> simp

theorem searchLogsBase_mem_avail (scen : String) (base : PlaywrightExecutionResult)
    (rpt : Report) (l : List Suite) (h : rpt.suites = some l) :
    ("Available spec titles in report: " ++ jsonStringifyList (getAllSpecTitles l))
      ∈ (searchLogsBase scen base rpt).logs := by
  unfold searchLogsBase
  rw [h]
  simp

theorem screenshotStep_skel (rb : String → Except String String)
    (r0 : PlaywrightExecutionResult) (shot : Option Attachment) :
    ∃ sd lg, screenshotStep rb r0 shot = { r0 with screenshotDataUri := sd, logs := lg }
      ∧ r0.logs ⊆ lg := by
  cases shot with
  | none => exact ⟨r0.screenshotDataUri, r0.logs, by simp [screenshotStep], List.Subset.refl _⟩
  | some a =>
    cases hap : a.path with
    | none =>
      refine ⟨r0.screenshotDataUri, r0.logs, ?_, List.Subset.refl _⟩
      simp [screenshotStep, hap]
    | some p =>
      cases hrb : rb p with
      | ok b64 =>
        refine ⟨some ("data:image/png;base64," ++ b64),
          r0.logs ++ ["Screenshot captured: " ++ p], ?_, List.subset_append_left _ _⟩
        simp [screenshotStep, hap, hrb]
      | error m =>
        refine ⟨r0.screenshotDataUri,
          r0.logs ++ ["Failed to read screenshot (" ++ p ++ "): " ++ m], ?_,
          List.subset_append_left _ _⟩
        simp [screenshotStep, hap, hrb]

theorem videoStep_skel (vid : Option Attachment) (r2 : PlaywrightExecutionResult) :
    ∃ vp lg, videoStep vid r2 = { r2 with videoPath := vp, logs := lg }
      ∧ r2.logs ⊆ lg := by
  cases vid with
  | none => exact ⟨r2.videoPath, r2.logs, by simp [videoStep], List.Subset.refl _⟩
  | some a =>
    cases hap : a.path with
    | none =>
      refine ⟨r2.videoPath, r2.logs, ?_, List.Subset.refl _⟩
      simp [videoStep, hap]
    | some p =>
      refine ⟨some p, r2.logs ++ ["Video recorded: " ++ p], ?_, List.subset_append_left _ _⟩
      simp [videoStep, hap]

theorem screenshotStep_keeps (rb : String → Except String String)
    (r0 : PlaywrightExecutionResult) (shot : Option Attachment) :
    (screenshotStep rb r0 shot).success = r0.success
      ∧ (screenshotStep rb r0 shot).duration = r0.duration
      ∧ (screenshotStep rb r0 shot).error = r0.error
      ∧ (screenshotStep rb r0 shot).videoPath = r0.videoPath
      ∧ (screenshotStep rb r0 shot).attachments = r0.attachments
      ∧ (screenshotStep rb r0 shot).stdout = r0.stdout
      ∧ (screenshotStep rb r0 shot).stderr = r0.stderr
      ∧ (screenshotStep rb r0 shot).scenarioName = r0.scenarioName := by
  cases shot with
  | none => simp [screenshotStep]
  | some a =>
    cases hap : a.path with
    | none => simp [screenshotStep, hap]
    | some p =>
      cases hrb : rb p with
      | ok b64 => simp [screenshotStep, hap, hrb]
      | error m => simp [screenshotStep, hap, hrb]

theorem screenshotStep_logs_mono (rb : String → Except String String)
    (r0 : PlaywrightExecutionResult) (shot : Option Attachment) :
    r0.logs ⊆ (screenshotStep rb r0 shot).logs := by
  rcases screenshotStep_skel rb r0 shot with ⟨sd, lg, hskel, hsub⟩
  rw [hskel]
  exact hsub

theorem videoStep_keeps (vid : Option Attachment) (r2 : PlaywrightExecutionResult) :
    (videoStep vid r2).success = r2.success
      ∧ (videoStep vid r2).duration = r2.duration
      ∧ (videoStep vid r2).error = r2.error
      ∧ (videoStep vid r2).screenshotDataUri = r2.screenshotDataUri
      ∧ (videoStep vid r2).attachments = r2.attachments
      ∧ (videoStep vid r2).stdout = r2.stdout
      ∧ (videoStep vid r2).stderr = r2.stderr
      ∧ (videoStep vid r2).scenarioName = r2.scenarioName := by
  cases vid with
  | none => simp [videoStep]
  | some a =>
    cases hap : a.path with
    | none => simp [videoStep, hap]
    | some p => simp [videoStep, hap]

theorem videoStep_logs_mono (vid : Option Attachment) (r2 : PlaywrightExecutionResult) :
    r2.logs ⊆ (videoStep vid r2).logs := by
  rcases videoStep_skel vid r2 with ⟨vp, lg, hskel, hsub⟩
  rw [hskel]
  exact hsub

theorem foundPhase_fields (rb : String → Except String String) (ad : String)
    (base : PlaywrightExecutionResult) (tr : TestResult) :
    (foundPhase rb ad base tr).success = (tr.status == "passed")
      ∧ (foundPhase rb ad base tr).duration = some tr.duration
      ∧ (foundPhase rb ad base tr).attachments = resolveAttachments ad tr.attachments
      ∧ (foundPhase rb ad base tr).error
          = (if tr.status == "passed" then base.error else some (extractError tr))
      ∧ (foundPhase rb ad base tr).stdout = base.stdout
      ∧ (foundPhase rb ad base tr).stderr = base.stderr
      ∧ (foundPhase rb ad base tr).scenarioName = base.scenarioName := by
  simp only [foundPhase]
  rcases screenshotStep_keeps rb (foundBase ad base tr)
      ((resolveAttachments ad tr.attachments).bind (fun l => l.find? isScreenshotAtt)) with
    ⟨h1, h2, h3, h4, h5, h6, h7, h8⟩
  by_cases hp : (tr.status == "passed") = true
  · rw [if_pos hp]
    rw [h1, h2, h3, h5, h6, h7, h8]
    simp [foundBase, hp]
  · rw [if_neg hp]
    rcases videoStep_keeps
        ((resolveAttachments ad tr.attachments).bind (fun l => l.find? isVideoAtt))
        { screenshotStep rb (foundBase ad base tr)
            ((resolveAttachments ad tr.attachments).bind (fun l => l.find? isScreenshotAtt)) with
          error := some (extractError tr) } with
      ⟨v1, v2, v3, v4, v5, v6, v7, v8⟩
    rw [v1, v2, v3, v5, v6, v7, v8]
    simp only [h1, h2, h5, h6, h7, h8]
    simp [foundBase, hp]

/-
Concrete fixtures used by witnesses and counterexamples.
-/

/-- A filesystem in which every operation succeeds. -/
def fsAllOk : Fs :=
  { accessOk := fun _ => true
    mkdirErr := fun _ => none
    writeFileErr := fun _ => none
    readFileText := fun _ => Except.ok "reportjson"
    readFileB64 := fun _ => Except.ok "c2NyZWVuc2hvdA=="
    rmErr := none }

/-- A world with the given runner outcome and parsed report, over an
all-succeeding filesystem. -/
def worldWith (runner : RunnerOutcome) (rpt : Report) : World :=
  { cwd := "/app"
    nodePathEnv := none
    fs := fsAllOk
    runner := runner
    jsonParse := fun _ => Except.ok rpt }

/-- A report whose single top-level suite holds exactly one spec. -/
def singleSpecReport (sp : SpecR) : Report :=
  { suites := some [Suite.mk (some [sp]) none], errors := none }

/-- The sample scenario. -/
def tcLogin : TestCase :=
  { scenarioName := "Login", steps := ["await page.goto(\x27/\x27);"] }

/-- A passed result with duration 842 and no attachments. -/
def passedResult : TestResult :=
  { status := "passed", duration := 842, error := none, errors := none, attachments := none }

/-- A failed result carrying an error message. -/
def failedResult : TestResult :=
  { status := "failed", duration := 100,
    error := some { message := "Timed out waiting for locator" }, errors := none,
    attachments := none }

theorem execute_result_ok (w : World) (tc : TestCase) (appUrl : String) (now : Nat)
    (hsetup : contextSetup w.fs (runContextDirOf w.cwd tc.scenarioName now)
        (artifactsDirOf w.cwd tc.scenarioName now) = .ok) :
    (executePlaywrightTest w tc appUrl now).result = .ok (tryBody w tc now) := by
  rw [execute_setup_ok w tc appUrl now hsetup]

theorem reportPhase_found (rb : String → Except String String)
    (scen reportPath ad : String) (base : PlaywrightExecutionResult) (rpt : Report)
    (sp : SpecR) (t : TestEntry) (tr : TestResult) (ts : List TestEntry) (rs : List TestResult)
    (hfind : findSpecRecursive (rpt.suites.getD []) (mkTargetTitle scen) = some sp)
    (htests : sp.tests = t :: ts) (hres : t.results = tr :: rs) :
    reportPhase rb scen reportPath ad base rpt
      = foundPhase rb ad (searchLogsBase scen base rpt) tr := by
  simp only [reportPhase, hfind, htests, hres, Option.some_bind, List.head?_cons]

/-
C1.  The runner exits non-zero because the test failed.  Node's
`execFile` passes an `Error` to its callback for any non-zero exit, so
the `await execFileAsync(...)` of line 155 throws and control jumps to
the `catch` of line 238: the report is never read or parsed, exactly as
for a launch failure or a timeout kill.
-/

/-- A world whose runner exits non-zero while a fully parseable report
with a matching passed spec (duration 842) sits on disk. -/
def wC1 : World :=
  worldWith (.err .nonZeroExit "Command failed: playwright test" (some "1 failed") (some ""))
    (singleSpecReport { title := mkTargetTitle "Login", tests := [{ results := [passedResult] }] })

/-- C1 counterexample: with a non-zero runner exit, the orchestrator does
not proceed to report parsing — the result carries the rejection message,
no duration, and success=false, even though the report on disk holds a
matching passed result with duration 842 (report-derived values would
have been success=true, duration 842). -/
theorem C1_counterexample :
    ((executePlaywrightTest wC1 tcLogin "http://localhost:9002" 42).result.toOption.map
        (fun r => (r.success, r.duration, r.error)))
      = some (false, none, some "Command failed: playwright test") := by
  decide

/-- C1 amended: a non-zero runner exit rejects `execFileAsync` and is
handled by the same `catch` as a launch failure or timeout kill — the
result is the catch-path result (success=false, error from the rejection
message, no report-derived fields), identical to what a launch failure
with the same rejection data produces; only a zero-exit run proceeds to
report parsing. -/
theorem C1_amended (w : World) (tc : TestCase) (appUrl : String) (now : Nat)
    (kind : ErrKind) (msg : String) (so se : Option String)
    (hsetup : contextSetup w.fs (runContextDirOf w.cwd tc.scenarioName now)
        (artifactsDirOf w.cwd tc.scenarioName now) = .ok)
    (hrun : w.runner = .err kind msg so se) :
    (executePlaywrightTest w tc appUrl now).result
        = .ok (runnerCatch (preRunnerBase w tc now) msg so se)
      ∧ (runnerCatch (preRunnerBase w tc now) msg so se).success = false
      ∧ (runnerCatch (preRunnerBase w tc now) msg so se).error
          = some (jsOr msg "Playwright execution failed.")
      ∧ (runnerCatch (preRunnerBase w tc now) msg so se).duration = none
      ∧ (runnerCatch (preRunnerBase w tc now) msg so se).attachments = none
      ∧ (runnerCatch (preRunnerBase w tc now) msg so se).screenshotDataUri = none
      ∧ executePlaywrightTest w tc appUrl now
          = executePlaywrightTest { w with runner := .err .launchFail msg so se } tc appUrl now := by
  have hbody : tryBody w tc now = runnerCatch (preRunnerBase w tc now) msg so se :=
    tryBody_runner_err w tc now kind msg so se hrun
  refine ⟨?_, ?_, ?_, ?_, ?_, ?_, ?_⟩
  · rw [execute_setup_ok w tc appUrl now hsetup, hbody]
  · simp [runnerCatch]
  · simp [runnerCatch]
  · simp [runnerCatch, (preRunnerBase_fields w tc now).2.2.1]
  · simp [runnerCatch, (preRunnerBase_fields w tc now).2.2.2.1]
  · simp [runnerCatch, (preRunnerBase_fields w tc now).2.2.2.2.1]
  · rw [execute_setup_ok w tc appUrl now hsetup, hbody]
    rw [execute_setup_ok { w with runner := .err .launchFail msg so se } tc appUrl now hsetup]
    rw [tryBody_runner_err { w with runner := .err .launchFail msg so se } tc now
          .launchFail msg so se rfl]
    rfl

/-- C1 witness: the amended claim at the concrete world `wC1`. -/
theorem C1_witness :
    wC1.runner = .err .nonZeroExit "Command failed: playwright test" (some "1 failed") (some "")
      ∧ (executePlaywrightTest wC1 tcLogin "http://localhost:9002" 42).result
          = .ok (runnerCatch (preRunnerBase wC1 tcLogin 42) "Command failed: playwright test"
              (some "1 failed") (some "")) :=
  ⟨rfl,
    (C1_amended wC1 tcLogin "http://localhost:9002" 42 .nonZeroExit
      "Command failed: playwright test" (some "1 failed") (some "") (by decide) rfl).1⟩

/-
C2.  Context-creation failure.  The `ensureDir` calls of lines 71–72 sit
outside the `try` of line 128, so their rejection escapes the function:
the caller sees an exception, not a success=false result.
-/

/-- A world whose filesystem cannot create the context directory. -/
def wC2 : World :=
  { cwd := "/app"
    nodePathEnv := none
    fs := { accessOk := fun _ => false
            mkdirErr := fun _ => some "EACCES: permission denied, mkdir"
            writeFileErr := fun _ => none
            readFileText := fun _ => Except.ok ""
            readFileB64 := fun _ => Except.ok ""
            rmErr := none }
    runner := .ok "" ""
    jsonParse := fun _ => Except.error "unused" }

/-- C2 counterexample: when creating the run context directory fails,
`executePlaywrightTest` rejects with the creation error instead of
returning a `PlaywrightExecutionResult` with success=false, and no
runner invocation is attempted. -/
theorem C2_counterexample :
    (executePlaywrightTest wC2 tcLogin "http://localhost:9002" 42).result
        = .error "EACCES: permission denied, mkdir"
      ∧ (executePlaywrightTest wC2 tcLogin "http://localhost:9002" 42).runnerInvoked = false := by
  decide

/-- C2 amended: a failure to create the run context directory or its
nested artifacts directory makes `executePlaywrightTest` reject with that
creation error (an exception crosses the orchestrator boundary; no
result value is returned); no runner invocation is attempted, and the
`finally` cleanup of line 246 does not run either, since the `try` was
never entered. -/
theorem C2_amended (w : World) (tc : TestCase) (appUrl : String) (now : Nat) (msg : String)
    (hsetup : contextSetup w.fs (runContextDirOf w.cwd tc.scenarioName now)
          (artifactsDirOf w.cwd tc.scenarioName now) = .failNoCtx msg
      ∨ contextSetup w.fs (runContextDirOf w.cwd tc.scenarioName now)
          (artifactsDirOf w.cwd tc.scenarioName now) = .failWithCtx msg) :
    (executePlaywrightTest w tc appUrl now).result = .error msg
      ∧ (executePlaywrightTest w tc appUrl now).runnerInvoked = false
      ∧ (executePlaywrightTest w tc appUrl now).cleanupRan = false :=
  execute_setup_fail w tc appUrl now msg hsetup

/-- C2 witness: the amended claim at the concrete world `wC2`. -/
theorem C2_witness :
    contextSetup wC2.fs (runContextDirOf wC2.cwd tcLogin.scenarioName 42)
        (artifactsDirOf wC2.cwd tcLogin.scenarioName 42)
        = .failNoCtx "EACCES: permission denied, mkdir"
      ∧ (executePlaywrightTest wC2 tcLogin "http://localhost:9002" 42).result
          = .error "EACCES: permission denied, mkdir" :=
  ⟨by decide,
    (C2_amended wC2 tcLogin "http://localhost:9002" 42 "EACCES: permission denied, mkdir"
      (Or.inl (by decide))).1⟩

/-
C3.  Status mapping of a matched result.
-/

/-- C3: when the runner fulfils, the report parses, the correlator finds
a spec with the target title, and that spec's first test has a first
result `tr`, then the returned result's success is exactly
`tr.status == "passed"`, its duration is `tr`'s duration, and on any
non-passed status the error is the non-empty message extracted from the
result's error field, else its joined error messages, else the bare
status. -/
theorem C3_status_mapping (w : World) (tc : TestCase) (appUrl : String) (now : Nat)
    (so se content : String) (rpt : Report) (sp : SpecR) (t : TestEntry) (tr : TestResult)
    (ts : List TestEntry) (rs : List TestResult)
    (hsetup : contextSetup w.fs (runContextDirOf w.cwd tc.scenarioName now)
        (artifactsDirOf w.cwd tc.scenarioName now) = .ok)
    (hrun : w.runner = .ok so se)
    (hread : w.fs.readFileText (reportJsonPathOf w.cwd tc.scenarioName now) = .ok content)
    (hparse : w.jsonParse content = .ok rpt)
    (hfind : findSpecRecursive (rpt.suites.getD []) (mkTargetTitle tc.scenarioName) = some sp)
    (htests : sp.tests = t :: ts) (hres : t.results = tr :: rs) :
    ∃ r, (executePlaywrightTest w tc appUrl now).result = .ok r
      ∧ r.success = (tr.status == "passed")
      ∧ r.duration = some tr.duration
      ∧ (tr.status = "passed" → r.error = none)
      ∧ (tr.status ≠ "passed" → r.error = some (extractError tr))
      ∧ extractError tr ≠ "" := by
  have hresult : (executePlaywrightTest w tc appUrl now).result
      = .ok (foundPhase w.fs.readFileB64 (artifactsDirOf w.cwd tc.scenarioName now)
          (searchLogsBase tc.scenarioName (withRunnerOutput (preRunnerBase w tc now) so se) rpt)
          tr) := by
    rw [execute_result_ok w tc appUrl now hsetup]
    rw [tryBody_runner_ok w tc now so se hrun]
    rw [runnerOkCont_parsed w tc now (preRunnerBase w tc now) so se content rpt hread hparse]
    rw [reportPhase_found w.fs.readFileB64 tc.scenarioName _ _ _ rpt sp t tr ts rs
          hfind htests hres]
  rcases foundPhase_fields w.fs.readFileB64 (artifactsDirOf w.cwd tc.scenarioName now)
      (searchLogsBase tc.scenarioName (withRunnerOutput (preRunnerBase w tc now) so se) rpt) tr
    with ⟨hsucc, hdur, _, herr, _, _, _⟩
  refine ⟨_, hresult, hsucc, hdur, ?_, ?_, extractError_ne_empty tr⟩
  · intro hp
    rw [herr, if_pos (by simp [hp])]
    rw [(searchLogsBase_fields _ _ _).2.1, (withRunnerOutput_fields _ _ _).2.1,
        (preRunnerBase_fields w tc now).2.1]
  · intro hp
    rw [herr, if_neg (by simp [hp])]

/-- The spec used by the C3 witness: target title, one test, one failed
result. -/
def loginFailedSpec : SpecR :=
  { title := mkTargetTitle "Login", tests := [{ results := [failedResult] }] }

/-- A world whose runner fulfils and whose report holds the failed
result. -/
def wC3 : World := worldWith (.ok "1 failed" "") (singleSpecReport loginFailedSpec)

/-- C3 witness: the status-mapping theorem at a concrete failed run. -/
theorem C3_witness :
    failedResult.status ≠ "passed"
      ∧ ∃ r, (executePlaywrightTest wC3 tcLogin "http://localhost:9002" 42).result = .ok r
        ∧ r.success = (failedResult.status == "passed")
        ∧ r.duration = some failedResult.duration
        ∧ (failedResult.status = "passed" → r.error = none)
        ∧ (failedResult.status ≠ "passed" → r.error = some (extractError failedResult))
        ∧ extractError failedResult ≠ "" :=
  ⟨by decide,
    C3_status_mapping wC3 tcLogin "http://localhost:9002" 42 "1 failed" "" "reportjson"
      (singleSpecReport loginFailedSpec) loginFailedSpec { results := [failedResult] }
      failedResult [] []
      (by decide) rfl rfl rfl (by decide) rfl rfl⟩

/-
C4.  Missing or unparsable report.
-/

/-- C4: when the runner fulfils but the report file cannot be read or its
content cannot be parsed as JSON, `executePlaywrightTest` returns (does
not throw) a result with success=false whose error message mentions the
report path attempted; and the caller's batch loop always yields one
result entry per scenario, so such a failure cannot abort a batch. -/
theorem C4_report_read_failure (w : World) (tc : TestCase) (appUrl : String) (now : Nat)
    (so se m : String)
    (hsetup : contextSetup w.fs (runContextDirOf w.cwd tc.scenarioName now)
        (artifactsDirOf w.cwd tc.scenarioName now) = .ok)
    (hrun : w.runner = .ok so se)
    (hfail : w.fs.readFileText (reportJsonPathOf w.cwd tc.scenarioName now) = .error m
      ∨ ∃ content, w.fs.readFileText (reportJsonPathOf w.cwd tc.scenarioName now) = .ok content
          ∧ w.jsonParse content = .error m) :
    ∃ r, (executePlaywrightTest w tc appUrl now).result = .ok r
      ∧ r.success = false
      ∧ r.error = some (reportCatchError (reportJsonPathOf w.cwd tc.scenarioName now) m)
      ∧ strMentions (reportJsonPathOf w.cwd tc.scenarioName now)
          (reportCatchError (reportJsonPathOf w.cwd tc.scenarioName now) m)
      ∧ (∀ env clock tcs, (runAllTests env appUrl clock tcs).length = tcs.length) := by
  have hresult : (executePlaywrightTest w tc appUrl now).result
      = .ok (reportCatch (reportJsonPathOf w.cwd tc.scenarioName now) m
          (withRunnerOutput (preRunnerBase w tc now) so se)) := by
    rw [execute_result_ok w tc appUrl now hsetup]
    rw [tryBody_runner_ok w tc now so se hrun]
    rw [runnerOkCont_report_fail w tc now (preRunnerBase w tc now) so se m hfail]
  refine ⟨_, hresult, by simp [reportCatch], by simp [reportCatch], ?_,
    fun env clock tcs => runAllTests_length env appUrl clock tcs⟩
  unfold reportCatchError
  exact strMentions_extend _ _ _ (strMentions_extend _ _ _ (strMentions_extend _ _ _
    (strMentions_here _ _)))

/-- A world whose runner fulfils but whose report file is absent. -/
def wC4 : World :=
  { worldWith (.ok "out" "") { suites := none, errors := none } with
    fs := { fsAllOk with
      readFileText := fun _ => Except.error "ENOENT: no such file or directory" } }

/-- C4 witness: the missing-report theorem at a concrete world whose
report read rejects with ENOENT. -/
theorem C4_witness :
    wC4.fs.readFileText (reportJsonPathOf wC4.cwd tcLogin.scenarioName 42)
        = Except.error "ENOENT: no such file or directory"
      ∧ ∃ r, (executePlaywrightTest wC4 tcLogin "http://localhost:9002" 42).result = .ok r
        ∧ r.success = false
        ∧ r.error = some (reportCatchError (reportJsonPathOf wC4.cwd tcLogin.scenarioName 42)
            "ENOENT: no such file or directory")
        ∧ strMentions (reportJsonPathOf wC4.cwd tcLogin.scenarioName 42)
            (reportCatchError (reportJsonPathOf wC4.cwd tcLogin.scenarioName 42)
              "ENOENT: no such file or directory")
        ∧ (∀ env clock tcs,
            (runAllTests env "http://localhost:9002" clock tcs).length = tcs.length) :=
  ⟨rfl,
    C4_report_read_failure wC4 tcLogin "http://localhost:9002" 42 "out" ""
      "ENOENT: no such file or directory" (by decide) rfl (Or.inl rfl)⟩

/-
C5.  No spec with the target title.  The full list of titles present in
the report goes into the result's `logs` (line 187), not into `error`;
the `error` of line 226 names the scenario and the report path only.
-/

theorem reportPhase_notFound (rb : String → Except String String)
    (scen reportPath ad : String) (base : PlaywrightExecutionResult) (rpt : Report)
    (hnone : (findSpecRecursive (rpt.suites.getD []) (mkTargetTitle scen)).bind
        (fun sp => sp.tests.head?.bind (fun t => t.results.head?)) = none) :
    (reportPhase rb scen reportPath ad base rpt).success = base.success
      ∧ (reportPhase rb scen reportPath ad base rpt).error
          = some (notFoundError scen reportPath)
      ∧ (searchLogsBase scen base rpt).logs ⊆ (reportPhase rb scen reportPath ad base rpt).logs := by
  simp only [reportPhase, hnone]
  refine ⟨?_, ?_, ?_⟩
  · split
    · split
      · exact (searchLogsBase_fields scen base rpt).1
      · exact (searchLogsBase_fields scen base rpt).1
    · exact (searchLogsBase_fields scen base rpt).1
  · split
    · split <;> rfl
    · rfl
  · split
    · split
      · exact (List.subset_append_left _ _).trans (List.subset_append_left _ _)
      · exact List.subset_append_left _ _
    · exact List.subset_append_left _ _

/-- The spec present in the C5 counterexample report. -/
def otherSpec : SpecR := { title := "other", tests := [] }

/-- A world whose parsed report holds a single spec titled `"other"`,
which never matches the target title for `"Login"`. -/
def wC5 : World :=
  worldWith (.ok "out" "") { suites := some [Suite.mk (some [otherSpec]) none], errors := none }

set_option maxRecDepth 4000 in
/-- C5 counterexample: when no spec matches, the result's `error` is set
but does not contain the title actually present in the report (`"other"`),
so it cannot contain the full list of present titles — that list is only
recorded in `logs`. -/
theorem C5_counterexample :
    ((executePlaywrightTest wC5 tcLogin "http://localhost:9002" 42).result.toOption.map
        (fun r => (r.success, r.error.isSome, decide (strMentions "other" (r.error.getD "")))))
      = some (false, true, false) := by
  decide

/-- C5 amended: with no spec matching the target title, the result has
success=false and an error identifying the scenario (and the report
path), while the sought title and the full list of spec titles actually
present are recorded in the result's `logs` — the available-titles line
being present whenever the report's `suites` field is. -/
theorem C5_amended (w : World) (tc : TestCase) (appUrl : String) (now : Nat)
    (so se content : String) (rpt : Report) (l : List Suite)
    (hsetup : contextSetup w.fs (runContextDirOf w.cwd tc.scenarioName now)
        (artifactsDirOf w.cwd tc.scenarioName now) = .ok)
    (hrun : w.runner = .ok so se)
    (hread : w.fs.readFileText (reportJsonPathOf w.cwd tc.scenarioName now) = .ok content)
    (hparse : w.jsonParse content = .ok rpt)
    (hsuites : rpt.suites = some l)
    (hfind : findSpecRecursive l (mkTargetTitle tc.scenarioName) = none) :
    ∃ r, (executePlaywrightTest w tc appUrl now).result = .ok r
      ∧ r.success = false
      ∧ r.error
          = some (notFoundError tc.scenarioName (reportJsonPathOf w.cwd tc.scenarioName now))
      ∧ strMentions tc.scenarioName
          (notFoundError tc.scenarioName (reportJsonPathOf w.cwd tc.scenarioName now))
      ∧ ("Searching for spec title in JSON report: \"" ++ mkTargetTitle tc.scenarioName ++ "\"")
          ∈ r.logs
      ∧ ("Available spec titles in report: " ++ jsonStringifyList (getAllSpecTitles l))
          ∈ r.logs := by
  have hresult : (executePlaywrightTest w tc appUrl now).result
      = .ok (reportPhase w.fs.readFileB64 tc.scenarioName
          (reportJsonPathOf w.cwd tc.scenarioName now)
          (artifactsDirOf w.cwd tc.scenarioName now)
          (withRunnerOutput (preRunnerBase w tc now) so se) rpt) := by
    rw [execute_result_ok w tc appUrl now hsetup]
    rw [tryBody_runner_ok w tc now so se hrun]
    rw [runnerOkCont_parsed w tc now (preRunnerBase w tc now) so se content rpt hread hparse]
  have hnone : (findSpecRecursive (rpt.suites.getD []) (mkTargetTitle tc.scenarioName)).bind
      (fun sp => sp.tests.head?.bind (fun t => t.results.head?)) = none := by
    rw [hsuites]
    simp [hfind]
  rcases reportPhase_notFound w.fs.readFileB64 tc.scenarioName
      (reportJsonPathOf w.cwd tc.scenarioName now) (artifactsDirOf w.cwd tc.scenarioName now)
      (withRunnerOutput (preRunnerBase w tc now) so se) rpt hnone with ⟨hsucc, herr, hsub⟩
  refine ⟨_, hresult, ?_, herr, ?_, ?_, ?_⟩
  · rw [hsucc, (withRunnerOutput_fields _ _ _).1, (preRunnerBase_fields w tc now).1]
  · unfold notFoundError
    exact strMentions_extend _ _ _ (strMentions_extend _ _ _ (strMentions_extend _ _ _
      (strMentions_here _ _)))
  · exact hsub (searchLogsBase_mem_search tc.scenarioName _ rpt)
  · exact hsub (searchLogsBase_mem_avail tc.scenarioName _ rpt l hsuites)

/-- C5 witness: the amended claim at the concrete world `wC5`. -/
theorem C5_witness :
    wC5.jsonParse "reportjson"
        = Except.ok { suites := some [Suite.mk (some [otherSpec]) none], errors := none }
      ∧ findSpecRecursive [Suite.mk (some [otherSpec]) none] (mkTargetTitle "Login") = none
      ∧ ∃ r, (executePlaywrightTest wC5 tcLogin "http://localhost:9002" 42).result = .ok r
        ∧ r.success = false
        ∧ r.error = some (notFoundError tcLogin.scenarioName
            (reportJsonPathOf wC5.cwd tcLogin.scenarioName 42))
        ∧ strMentions tcLogin.scenarioName (notFoundError tcLogin.scenarioName
            (reportJsonPathOf wC5.cwd tcLogin.scenarioName 42))
        ∧ ("Searching for spec title in JSON report: \"" ++ mkTargetTitle tcLogin.scenarioName
            ++ "\"") ∈ r.logs
        ∧ ("Available spec titles in report: "
            ++ jsonStringifyList (getAllSpecTitles [Suite.mk (some [otherSpec]) none])) ∈ r.logs :=
  ⟨rfl, by decide,
    C5_amended wC5 tcLogin "http://localhost:9002" 42 "out" "" "reportjson"
      { suites := some [Suite.mk (some [otherSpec]) none], errors := none }
      [Suite.mk (some [otherSpec]) none]
      (by decide) rfl rfl rfl rfl (by decide)⟩

/-
C6.  Title round-trip through the generated test file.  The materializer
escapes only single quotes (line 78); a backslash in the scenario name
survives escaping and is then interpreted by the JavaScript lexer of the
generated file, so the title recorded in the report differs from the
correlator's target.
-/

/-- C6 counterexample: for the scenario name `a\b` (one backslash), the
materialized single-quoted title lexes to `a` + backspace + `b` — not to
the correlator's target title, a false negative caused by the escaping
asymmetry. -/
theorem C6_counterexample :
    jsUnescapeSQ (materializedTitleChars "a\\b")
        = some ("should successfully complete: a".data ++ [Char.ofNat 8])
      ∧ jsUnescapeSQ (materializedTitleChars "a\\b") ≠ some (mkTargetTitle "a\\b").data := by
  decide

/-- C6 amended: for every scenario name containing no backslash and no
raw line terminator, the materialized title lexes back to exactly the
correlator's target title `"should successfully complete: " ++ N`, so
correlation has no false negative for such names (quotes, slashes and
other unicode included). -/
theorem C6_amended (scen : String)
    (hb : bslash ∉ scen.data) (hlf : lfChar ∉ scen.data) (hcr : crChar ∉ scen.data) :
    jsUnescapeSQ (materializedTitleChars scen) = some (mkTargetTitle scen).data := by
  unfold materializedTitleChars
  rw [jsUnescapeSQ_plain_append "should successfully complete: ".data (by decide)
        (escapeQuotes scen.data)]
  rw [jsUnescapeSQ_escapeQuotes scen.data hb hlf hcr]
  rw [show (mkTargetTitle scen).data = "should successfully complete: ".data ++ scen.data from by
        simp [mkTargetTitle, String.data_append]]
  rfl

/-- C6 witness: the amended round-trip at a name containing a quote and
a slash. -/
theorem C6_witness :
    bslash ∉ ("User\x27s login w/ 2FA" : String).data
      ∧ jsUnescapeSQ (materializedTitleChars "User\x27s login w/ 2FA")
          = some (mkTargetTitle "User\x27s login w/ 2FA").data :=
  ⟨by decide,
    C6_amended "User\x27s login w/ 2FA" (by decide) (by decide) (by decide)⟩

/-
C7.  Run-context id.  The id is `sanitize(name) ++ "-" ++ Date.now()`:
path-safe always, but two runs in the same millisecond whose sanitized
names coincide get the same id.
-/

/-- C7 counterexample: two distinct scenario names, run in the same
millisecond, produce equal execution-context ids — sanitization maps
both `"a b"` and `"a?b"` to `"a_b"`, and the `Date.now()` token is the
same. -/
theorem C7_counterexample :
    ("a b" : String) ≠ "a?b"
      ∧ uniqueRunId "a b" 1755000000042 = uniqueRunId "a?b" 1755000000042 := by
  decide

/-- C7 amended: every character of the run id is in `[a-zA-Z0-9_-]`
(filesystem-path-safe), and two executions whose `Date.now()` values
differ never produce equal ids, whatever the scenario names; collisions
are possible exactly for runs within the same millisecond whose
sanitized names coincide. -/
theorem C7_amended (scen1 scen2 : String) (now1 now2 : Nat) (hne : now1 ≠ now2) :
    (∀ c ∈ (uniqueRunId scen1 now1).data, SafeChar c)
      ∧ uniqueRunId scen1 now1 ≠ uniqueRunId scen2 now2 :=
  ⟨uniqueRunId_safe scen1 now1, uniqueRunId_time_inj scen1 scen2 now1 now2 hne⟩

/-- C7 witness: the amended claim at two concrete runs of the same
scenario in different milliseconds. -/
theorem C7_witness :
    (1755000000042 : Nat) ≠ 1755000000043
      ∧ ((∀ c ∈ (uniqueRunId "Log in!" 1755000000042).data, SafeChar c)
        ∧ uniqueRunId "Log in!" 1755000000042 ≠ uniqueRunId "Log in!" 1755000000043) :=
  ⟨by decide, C7_amended "Log in!" "Log in!" 1755000000042 1755000000043 (by decide)⟩

/-
C8.  Screenshot inlining.  The finder of line 203 requires the
content-type to be exactly `image/png`, not any image type.
-/

theorem screenshotStep_read_ok (rb : String → Except String String)
    (r0 : PlaywrightExecutionResult) (a : Attachment) (p b64 : String)
    (hp : a.path = some p) (hb : rb p = .ok b64) :
    screenshotStep rb r0 (some a)
      = { r0 with
          screenshotDataUri := some ("data:image/png;base64," ++ b64)
          logs := r0.logs ++ ["Screenshot captured: " ++ p] } := by
  simp [screenshotStep, hp, hb]

theorem screenshotStep_read_err (rb : String → Except String String)
    (r0 : PlaywrightExecutionResult) (a : Attachment) (p m : String)
    (hp : a.path = some p) (hb : rb p = .error m) :
    screenshotStep rb r0 (some a)
      = { r0 with logs := r0.logs ++ ["Failed to read screenshot (" ++ p ++ "): " ++ m] } := by
  simp [screenshotStep, hp, hb]

theorem videoStep_videoPath (vid : Option Attachment) (r2 : PlaywrightExecutionResult) :
    (videoStep vid r2).videoPath
      = (match vid with
         | some a =>
           match a.path with
           | some p => some p
           | none => r2.videoPath
         | none => r2.videoPath) := by
  cases vid with
  | none => simp [videoStep]
  | some a =>
    cases hap : a.path with
    | none => simp [videoStep, hap]
    | some p => simp [videoStep, hap]

theorem foundPhase_screenshot_ok (rb : String → Except String String) (ad : String)
    (base : PlaywrightExecutionResult) (tr : TestResult) (a : Attachment) (p b64 : String)
    (hatt : (resolveAttachments ad tr.attachments).bind (fun l => l.find? isScreenshotAtt)
        = some a)
    (hp : a.path = some p) (hb : rb p = .ok b64) :
    (foundPhase rb ad base tr).screenshotDataUri = some ("data:image/png;base64," ++ b64) := by
  simp only [foundPhase, hatt]
  rw [screenshotStep_read_ok rb (foundBase ad base tr) a p b64 hp hb]
  by_cases hpass : (tr.status == "passed") = true
  · rw [if_pos hpass]
  · rw [if_neg hpass]
    rw [(videoStep_keeps _ _).2.2.2.1]

theorem foundPhase_screenshot_err (rb : String → Except String String) (ad : String)
    (base : PlaywrightExecutionResult) (tr : TestResult) (a : Attachment) (p m : String)
    (hatt : (resolveAttachments ad tr.attachments).bind (fun l => l.find? isScreenshotAtt)
        = some a)
    (hp : a.path = some p) (hb : rb p = .error m) :
    (foundPhase rb ad base tr).screenshotDataUri = base.screenshotDataUri
      ∧ ("Failed to read screenshot (" ++ p ++ "): " ++ m) ∈ (foundPhase rb ad base tr).logs := by
  simp only [foundPhase, hatt]
  rw [screenshotStep_read_err rb (foundBase ad base tr) a p m hp hb]
  constructor
  · by_cases hpass : (tr.status == "passed") = true
    · rw [if_pos hpass]
      simp [foundBase]
    · rw [if_neg hpass]
      rw [(videoStep_keeps _ _).2.2.2.1]
      simp [foundBase]
  · have hmem : ("Failed to read screenshot (" ++ p ++ "): " ++ m)
        ∈ (foundBase ad base tr).logs ++ ["Failed to read screenshot (" ++ p ++ "): " ++ m] := by
      simp
    by_cases hpass : (tr.status == "passed") = true
    · rw [if_pos hpass]
      exact hmem
    · rw [if_neg hpass]
      exact videoStep_logs_mono _ _ hmem

theorem foundPhase_videoPath_indep (rb1 rb2 : String → Except String String) (ad : String)
    (base : PlaywrightExecutionResult) (tr : TestResult) :
    (foundPhase rb1 ad base tr).videoPath = (foundPhase rb2 ad base tr).videoPath := by
  simp only [foundPhase]
  by_cases hpass : (tr.status == "passed") = true
  · rw [if_pos hpass, if_pos hpass]
    rw [(screenshotStep_keeps rb1 _ _).2.2.2.1, (screenshotStep_keeps rb2 _ _).2.2.2.1]
  · rw [if_neg hpass, if_neg hpass]
    rw [videoStep_videoPath, videoStep_videoPath]
    have h1 : ({ screenshotStep rb1 (foundBase ad base tr)
        ((resolveAttachments ad tr.attachments).bind (fun l => l.find? isScreenshotAtt)) with
        error := some (extractError tr) } : PlaywrightExecutionResult).videoPath
        = (foundBase ad base tr).videoPath := by
      exact (screenshotStep_keeps rb1 _ _).2.2.2.1
    have h2 : ({ screenshotStep rb2 (foundBase ad base tr)
        ((resolveAttachments ad tr.attachments).bind (fun l => l.find? isScreenshotAtt)) with
        error := some (extractError tr) } : PlaywrightExecutionResult).videoPath
        = (foundBase ad base tr).videoPath := by
      exact (screenshotStep_keeps rb2 _ _).2.2.2.1
    rw [h1, h2]

/-- Replace a world's screenshot-read oracle. -/
def withReadB64 (w : World) (rb : String → Except String String) : World :=
  { w with fs := { w.fs with readFileB64 := rb } }

/-- A failed result whose only attachment is a screenshot with
content-type `image/jpeg` and an absolute, readable path. -/
def jpegShotResult : TestResult :=
  { status := "failed", duration := 10, error := none, errors := none
    attachments := some [{ name := "screenshot", contentType := "image/jpeg", path := some "/shots/a.jpg", body := none }] }

/-- A world whose report's matched result carries the jpeg screenshot. -/
def wC8 : World :=
  worldWith (.ok "out" "")
    (singleSpecReport { title := mkTargetTitle "Login", tests := [{ results := [jpegShotResult] }] })

set_option maxRecDepth 4000 in
/-- C8 counterexample: the matched result's attachments include an
attachment named "screenshot" with an image content-type (`image/jpeg`)
and a resolvable, readable path, yet the returned result's inline
screenshot field is absent — line 203 requires the content-type to be
exactly `image/png`. -/
theorem C8_counterexample :
    ((executePlaywrightTest wC8 tcLogin "http://localhost:9002" 42).result.toOption.map
        (fun r => (r.screenshotDataUri, r.success)))
      = some (none, false) := by
  decide

/-- C8 amended: when the resolved attachments contain a `screenshot`
attachment whose content-type is exactly `image/png` with a truthy path
`p`: if reading `p` succeeds its base64 bytes are inlined as a non-empty
`data:image/png;base64,...` string; if reading fails, the inline field
is absent, the failure appears only in the logs, and every other field
of the result is what the same run with any other read oracle produces. -/
theorem C8_amended (w : World) (tc : TestCase) (appUrl : String) (now : Nat)
    (so se content : String) (rpt : Report) (sp : SpecR) (t : TestEntry) (tr : TestResult)
    (ts : List TestEntry) (rs : List TestResult) (a : Attachment) (p : String)
    (hsetup : contextSetup w.fs (runContextDirOf w.cwd tc.scenarioName now)
        (artifactsDirOf w.cwd tc.scenarioName now) = .ok)
    (hrun : w.runner = .ok so se)
    (hread : w.fs.readFileText (reportJsonPathOf w.cwd tc.scenarioName now) = .ok content)
    (hparse : w.jsonParse content = .ok rpt)
    (hfind : findSpecRecursive (rpt.suites.getD []) (mkTargetTitle tc.scenarioName) = some sp)
    (htests : sp.tests = t :: ts) (hres : t.results = tr :: rs)
    (hatt : (resolveAttachments (artifactsDirOf w.cwd tc.scenarioName now) tr.attachments).bind
        (fun l => l.find? isScreenshotAtt) = some a)
    (hp : a.path = some p) :
    (∀ b64, w.fs.readFileB64 p = .ok b64 →
      ∃ r, (executePlaywrightTest w tc appUrl now).result = .ok r
        ∧ r.screenshotDataUri = some ("data:image/png;base64," ++ b64)
        ∧ "data:image/png;base64," ++ b64 ≠ "")
    ∧ (∀ m, w.fs.readFileB64 p = .error m →
      ∃ r, (executePlaywrightTest w tc appUrl now).result = .ok r
        ∧ r.screenshotDataUri = none
        ∧ ("Failed to read screenshot (" ++ p ++ "): " ++ m) ∈ r.logs
        ∧ ∀ rb : String → Except String String,
          ∃ r2, (executePlaywrightTest (withReadB64 w rb) tc appUrl now).result = .ok r2
            ∧ r2.success = r.success ∧ r2.duration = r.duration ∧ r2.error = r.error
            ∧ r2.videoPath = r.videoPath ∧ r2.attachments = r.attachments
            ∧ r2.stdout = r.stdout ∧ r2.stderr = r.stderr
            ∧ r2.scenarioName = r.scenarioName) := by
  have hbase : (executePlaywrightTest w tc appUrl now).result
      = .ok (foundPhase w.fs.readFileB64 (artifactsDirOf w.cwd tc.scenarioName now)
          (searchLogsBase tc.scenarioName (withRunnerOutput (preRunnerBase w tc now) so se) rpt)
          tr) := by
    rw [execute_result_ok w tc appUrl now hsetup]
    rw [tryBody_runner_ok w tc now so se hrun]
    rw [runnerOkCont_parsed w tc now (preRunnerBase w tc now) so se content rpt hread hparse]
    rw [reportPhase_found w.fs.readFileB64 tc.scenarioName _ _ _ rpt sp t tr ts rs
          hfind htests hres]
  constructor
  · intro b64 hb
    exact ⟨_, hbase,
      foundPhase_screenshot_ok w.fs.readFileB64 _ _ tr a p b64 hatt hp hb,
      by
        intro hcontra
        have := congrArg String.length hcontra
        rw [String.length_append] at this
        have h22 : ("data:image/png;base64," : String).length = 22 := rfl
        have h0 : ("" : String).length = 0 := rfl
        rw [h22, h0] at this
        omega⟩
  · intro m hb
    have herr := foundPhase_screenshot_err w.fs.readFileB64
      (artifactsDirOf w.cwd tc.scenarioName now)
      (searchLogsBase tc.scenarioName (withRunnerOutput (preRunnerBase w tc now) so se) rpt)
      tr a p m hatt hp hb
    refine ⟨_, hbase, ?_, herr.2, ?_⟩
    · rw [herr.1, (searchLogsBase_fields _ _ _).2.2.2.2.2.2,
          (withRunnerOutput_fields _ _ _).2.2.2.2.2.2,
          (preRunnerBase_fields w tc now).2.2.2.2.1]
    · intro rb
      have hbase2 : (executePlaywrightTest (withReadB64 w rb) tc appUrl now).result
          = .ok (foundPhase rb (artifactsDirOf w.cwd tc.scenarioName now)
              (searchLogsBase tc.scenarioName (withRunnerOutput (preRunnerBase w tc now) so se)
                rpt) tr) := by
        have hsetup2 : contextSetup (withReadB64 w rb).fs
            (runContextDirOf (withReadB64 w rb).cwd tc.scenarioName now)
            (artifactsDirOf (withReadB64 w rb).cwd tc.scenarioName now) = .ok := hsetup
        rw [execute_result_ok (withReadB64 w rb) tc appUrl now hsetup2]
        rw [tryBody_runner_ok (withReadB64 w rb) tc now so se hrun]
        rw [runnerOkCont_parsed (withReadB64 w rb) tc now
              (preRunnerBase (withReadB64 w rb) tc now) so se content rpt hread hparse]
        rw [reportPhase_found (withReadB64 w rb).fs.readFileB64 tc.scenarioName _ _ _ rpt
              sp t tr ts rs hfind htests hres]
        rfl
      rcases foundPhase_fields rb (artifactsDirOf w.cwd tc.scenarioName now)
          (searchLogsBase tc.scenarioName (withRunnerOutput (preRunnerBase w tc now) so se) rpt)
          tr with ⟨g1, g2, g3, g4, g5, g6, g7⟩
      rcases foundPhase_fields w.fs.readFileB64 (artifactsDirOf w.cwd tc.scenarioName now)
          (searchLogsBase tc.scenarioName (withRunnerOutput (preRunnerBase w tc now) so se) rpt)
          tr with ⟨f1, f2, f3, f4, f5, f6, f7⟩
      refine ⟨_, hbase2, ?_, ?_, ?_, ?_, ?_, ?_, ?_, ?_⟩
      · rw [g1, f1]
      · rw [g2, f2]
      · rw [g4, f4]
      · exact foundPhase_videoPath_indep rb w.fs.readFileB64 _ _ tr
      · rw [g3, f3]
      · rw [g5, f5]
      · rw [g6, f6]
      · rw [g7, f7]

/-- The matched result of the C8 witness: a failed test with a png
screenshot attachment at an absolute path. -/
def pngShotResult : TestResult :=
  { status := "failed", duration := 10, error := none, errors := none
    attachments := some [{ name := "screenshot", contentType := "image/png", path := some "/shots/a.png", body := none }] }

/-- A world whose report's matched result carries the png screenshot. -/
def wC8png : World :=
  worldWith (.ok "out" "")
    (singleSpecReport { title := mkTargetTitle "Login", tests := [{ results := [pngShotResult] }] })

set_option maxRecDepth 4000 in
/-- C8 witness: the amended claim at a concrete png-screenshot run. -/
theorem C8_witness :
    ((resolveAttachments (artifactsDirOf wC8png.cwd tcLogin.scenarioName 42)
        pngShotResult.attachments).bind (fun l => l.find? isScreenshotAtt)).isSome = true
      ∧ (∀ b64, wC8png.fs.readFileB64 "/shots/a.png" = .ok b64 →
          ∃ r, (executePlaywrightTest wC8png tcLogin "http://localhost:9002" 42).result = .ok r
            ∧ r.screenshotDataUri = some ("data:image/png;base64," ++ b64)
            ∧ "data:image/png;base64," ++ b64 ≠ "") := by
  refine ⟨by decide, ?_⟩
  exact (C8_amended wC8png tcLogin "http://localhost:9002" 42 "out" "" "reportjson"
    (singleSpecReport { title := mkTargetTitle "Login", tests := [{ results := [pngShotResult] }] })
    { title := mkTargetTitle "Login", tests := [{ results := [pngShotResult] }] }
    { results := [pngShotResult] } pngShotResult [] []
    { name := "screenshot", contentType := "image/png", path := some "/shots/a.png", body := none }
    "/shots/a.png"
    (by decide) rfl rfl rfl (by decide) rfl rfl (by decide) rfl).1

/-
C9.  Cleanup.  The `finally` of line 246 runs whenever the `try` was
entered, its outcome never changes the returned result, but `fs.rm` is
best-effort: when it rejects, the warning is logged and the context
directory survives.
-/

/-- A world whose context-directory removal rejects. -/
def wC9 : World :=
  { worldWith (.ok "out" "") { suites := none, errors := none } with
    fs := { fsAllOk with rmErr := some "EBUSY: resource busy or locked" } }

/-- C9 counterexample: when `fs.rm` rejects, the cleanup step runs and
is swallowed, but the execution context directory still exists after
`executePlaywrightTest` returns. -/
theorem C9_counterexample :
    (executePlaywrightTest wC9 tcLogin "http://localhost:9002" 42).cleanupRan = true
      ∧ (executePlaywrightTest wC9 tcLogin "http://localhost:9002" 42).ctxDirExistsAfter = true := by
  decide

/-- C9 amended: on every exit path of the `try` body (success, runner
failure, timeout, report-parse failure — i.e. whatever the runner and
report oracles do), the cleanup step executes; a removal failure never
changes the returned result (the result is identical under any removal
outcome); and the context directory no longer exists after return
provided the removal succeeds. -/
theorem C9_amended (w : World) (tc : TestCase) (appUrl : String) (now : Nat)
    (hsetup : contextSetup w.fs (runContextDirOf w.cwd tc.scenarioName now)
        (artifactsDirOf w.cwd tc.scenarioName now) = .ok) :
    (executePlaywrightTest w tc appUrl now).cleanupRan = true
      ∧ (w.fs.rmErr = none → (executePlaywrightTest w tc appUrl now).ctxDirExistsAfter = false)
      ∧ ∀ e, (executePlaywrightTest { w with fs := { w.fs with rmErr := e } } tc appUrl now).result
          = (executePlaywrightTest w tc appUrl now).result := by
  refine ⟨?_, ?_, ?_⟩
  · rw [execute_setup_ok w tc appUrl now hsetup]
  · intro h
    rw [execute_setup_ok w tc appUrl now hsetup]
    simp [h]
  · intro e
    have hsetup2 : contextSetup ({ w with fs := { w.fs with rmErr := e } }).fs
        (runContextDirOf ({ w with fs := { w.fs with rmErr := e } }).cwd tc.scenarioName now)
        (artifactsDirOf ({ w with fs := { w.fs with rmErr := e } }).cwd tc.scenarioName now)
        = .ok := hsetup
    rw [execute_result_ok _ tc appUrl now hsetup2]
    rw [execute_result_ok w tc appUrl now hsetup]
    rfl

/-- C9 witness: the amended claim at the concrete world `wC9`. -/
theorem C9_witness :
    contextSetup wC9.fs (runContextDirOf wC9.cwd tcLogin.scenarioName 42)
        (artifactsDirOf wC9.cwd tcLogin.scenarioName 42) = .ok
      ∧ (executePlaywrightTest wC9 tcLogin "http://localhost:9002" 42).cleanupRan = true :=
  ⟨by decide, (C9_amended wC9 tcLogin "http://localhost:9002" 42 (by decide)).1⟩

/-
C10.  A matching spec with no recorded results yields the same
"not found in JSON report" error as an absent title (line 226 is reached
through the undefined `tests[0]?.results[0]` chain of line 192).
-/

/-- C10: when the correlator does find a spec with the target title but
that spec has an empty `tests` list, or its first test has an empty
`results` list, the result is success=false with exactly the
`notFoundError` string — the same error value the absent-title case
produces (see the C5 theorem), so the caller cannot distinguish the two. -/
theorem C10_empty_results (w : World) (tc : TestCase) (appUrl : String) (now : Nat)
    (so se content : String) (rpt : Report) (sp : SpecR)
    (hsetup : contextSetup w.fs (runContextDirOf w.cwd tc.scenarioName now)
        (artifactsDirOf w.cwd tc.scenarioName now) = .ok)
    (hrun : w.runner = .ok so se)
    (hread : w.fs.readFileText (reportJsonPathOf w.cwd tc.scenarioName now) = .ok content)
    (hparse : w.jsonParse content = .ok rpt)
    (hfind : findSpecRecursive (rpt.suites.getD []) (mkTargetTitle tc.scenarioName) = some sp)
    (hempty : sp.tests = [] ∨ ∃ t ts, sp.tests = t :: ts ∧ t.results = []) :
    ∃ r, (executePlaywrightTest w tc appUrl now).result = .ok r
      ∧ r.success = false
      ∧ r.error
          = some (notFoundError tc.scenarioName (reportJsonPathOf w.cwd tc.scenarioName now)) := by
  have hresult : (executePlaywrightTest w tc appUrl now).result
      = .ok (reportPhase w.fs.readFileB64 tc.scenarioName
          (reportJsonPathOf w.cwd tc.scenarioName now)
          (artifactsDirOf w.cwd tc.scenarioName now)
          (withRunnerOutput (preRunnerBase w tc now) so se) rpt) := by
    rw [execute_result_ok w tc appUrl now hsetup]
    rw [tryBody_runner_ok w tc now so se hrun]
    rw [runnerOkCont_parsed w tc now (preRunnerBase w tc now) so se content rpt hread hparse]
  have hnone : (findSpecRecursive (rpt.suites.getD []) (mkTargetTitle tc.scenarioName)).bind
      (fun sp => sp.tests.head?.bind (fun t => t.results.head?)) = none := by
    rw [hfind]
    rcases hempty with h | ⟨t, ts, hts, hr⟩
    · simp [h]
    · simp [hts, hr]
  rcases reportPhase_notFound w.fs.readFileB64 tc.scenarioName
      (reportJsonPathOf w.cwd tc.scenarioName now) (artifactsDirOf w.cwd tc.scenarioName now)
      (withRunnerOutput (preRunnerBase w tc now) so se) rpt hnone with ⟨hsucc, herr, _⟩
  refine ⟨_, hresult, ?_, herr⟩
  rw [hsucc, (withRunnerOutput_fields _ _ _).1, (preRunnerBase_fields w tc now).1]

/-- A spec that matches the target title but has no tests. -/
def emptySpec : SpecR := { title := mkTargetTitle "Login", tests := [] }

/-- A world whose report holds only the empty matching spec. -/
def wC10 : World := worldWith (.ok "out" "") (singleSpecReport emptySpec)

/-- C10 witness: the theorem at a concrete run whose matching spec has
an empty tests list. -/
theorem C10_witness :
    findSpecRecursive ((singleSpecReport emptySpec).suites.getD [])
        (mkTargetTitle tcLogin.scenarioName) = some emptySpec
      ∧ ∃ r, (executePlaywrightTest wC10 tcLogin "http://localhost:9002" 42).result = .ok r
        ∧ r.success = false
        ∧ r.error = some (notFoundError tcLogin.scenarioName
            (reportJsonPathOf wC10.cwd tcLogin.scenarioName 42)) :=
  ⟨by decide,
    C10_empty_results wC10 tcLogin "http://localhost:9002" 42 "out" "" "reportjson"
      (singleSpecReport emptySpec) emptySpec
      (by decide) rfl rfl rfl (by decide) (Or.inl rfl)⟩

end PlaywrightExec
